import Mathlib

/-!
ARM architected timer driver (drivers/clocksource/arm_arch_timer.c).

A shallow embedding of the register accessors, the per-core timer operations,
the counter readers and the erratum-workaround registry of the driver, followed
by theorems about them.

Conventions.
* Machine integers are natural numbers; a value stored into a `u32` is reduced
  modulo `2 ^ 32`, a value stored into a `u64` modulo `2 ^ 64`.
* The Control / TimerValue / comparator registers form a register file `Hw.reg`
  in which a read returns the value last written.  Every register write and
  every invocation of the clock-event callback is appended to `Hw.trace`.
* Counter registers are volatile: a reader is given the stream of values that
  successive reads return.
* Console diagnostics (`pr_warn`, `pr_info`) are not part of the modelled state.
-/

namespace ArchTimer

/-! ## Register accessor -/

/-- The `access` argument of the accessors: ARCH_TIMER_PHYS_ACCESS,
ARCH_TIMER_VIRT_ACCESS, ARCH_TIMER_MEM_PHYS_ACCESS, ARCH_TIMER_MEM_VIRT_ACCESS. -/
inductive Access
  | ARCH_TIMER_PHYS_ACCESS
  | ARCH_TIMER_VIRT_ACCESS
  | ARCH_TIMER_MEM_PHYS_ACCESS
  | ARCH_TIMER_MEM_VIRT_ACCESS
  deriving DecidableEq, Repr

/-- The logical register, `enum arch_timer_reg`. -/
inductive arch_timer_reg
  | ARCH_TIMER_REG_CTRL
  | ARCH_TIMER_REG_TVAL
  deriving DecidableEq, Repr

/-- A hardware location: one of the privileged system registers, or a 32-bit
word at a byte offset from the memory-mapped frame `timer->base`. -/
inductive Loc
  | cntp_ctl_el0
  | cntp_tval_el0
  | cntv_ctl_el0
  | cntv_tval_el0
  | cntp_cval_el0
  | cntv_cval_el0
  | mem (off : Nat)
  deriving DecidableEq, Repr

def CNTVCT_LO : Nat := 0x08
def CNTVCT_HI : Nat := 0x0c
def CNTP_TVAL : Nat := 0x28
def CNTP_CTL : Nat := 0x2c
def CNTV_TVAL : Nat := 0x38
def CNTV_CTL : Nat := 0x3c

/-- Modelled from the spec: ARCH_TIMER_CTRL_ENABLE is defined in
clocksource/arm_arch_timer.h, which is not among the sources; the spec gives
the Control layout, bit0 = Enable. -/
def ARCH_TIMER_CTRL_ENABLE : Nat := 1

/-- Modelled from the spec: ARCH_TIMER_CTRL_IT_MASK is defined in
clocksource/arm_arch_timer.h, which is not among the sources; the spec gives
the Control layout, bit1 = InterruptMask. -/
def ARCH_TIMER_CTRL_IT_MASK : Nat := 2

/-- Modelled from the spec: ARCH_TIMER_CTRL_IT_STAT is defined in
clocksource/arm_arch_timer.h, which is not among the sources; the spec gives
the Control layout, bit2 = InterruptStatus. -/
def ARCH_TIMER_CTRL_IT_STAT : Nat := 4

/-- The C operator `~` on a constant that is then combined with an
`unsigned long` (64 bits): all 64 bits inverted. -/
def not64 (x : Nat) : Nat := (2 ^ 64 - 1) ^^^ x

/-- An observable action of the driver on its environment. -/
inductive Event
  | write (l : Loc) (v : Nat)
  | event_handler
  | override_call (tag : Nat) (evt : Nat)
  deriving DecidableEq, Repr

/-- The hardware as the driver sees it: the register file, the current value of
the system counter, and the actions performed so far. -/
structure Hw where
  reg : Loc → Nat
  cntvct : Nat
  trace : List Event

/-- Store `v` at `l` and record the write. -/
def Hw.store (hw : Hw) (l : Loc) (v : Nat) : Hw :=
  { hw with reg := Function.update hw.reg l v, trace := hw.trace ++ [Event.write l v] }

/-- The `writel_relaxed_no_log(val, timer->base + off)` of a `u32`. -/
def writel_relaxed_no_log (val : Nat) (off : Nat) (hw : Hw) : Hw :=
  hw.store (Loc.mem off) (val % 2 ^ 32)

/-- The `readl_relaxed_no_log(timer->base + off)`, a `u32`. -/
def readl_relaxed_no_log (off : Nat) (hw : Hw) : Nat :=
  hw.reg (Loc.mem off) % 2 ^ 32

/-- Modelled from the spec: arch_timer_reg_write_cp15 is defined in
asm/arch_timer.h, which is not among the sources; for the privileged access
modes it performs the architecture's privileged-register write for that
timeline (physical: cntp_ctl_el0 / cntp_tval_el0, virtual: cntv_ctl_el0 /
cntv_tval_el0), and does nothing for another access value. -/
def arch_timer_reg_write_cp15 (access : Access) (reg : arch_timer_reg) (val : Nat)
    (hw : Hw) : Hw :=
  match access, reg with
  | .ARCH_TIMER_PHYS_ACCESS, .ARCH_TIMER_REG_CTRL => hw.store Loc.cntp_ctl_el0 (val % 2 ^ 32)
  | .ARCH_TIMER_PHYS_ACCESS, .ARCH_TIMER_REG_TVAL => hw.store Loc.cntp_tval_el0 (val % 2 ^ 32)
  | .ARCH_TIMER_VIRT_ACCESS, .ARCH_TIMER_REG_CTRL => hw.store Loc.cntv_ctl_el0 (val % 2 ^ 32)
  | .ARCH_TIMER_VIRT_ACCESS, .ARCH_TIMER_REG_TVAL => hw.store Loc.cntv_tval_el0 (val % 2 ^ 32)
  | _, _ => hw

/-- Modelled from the spec: arch_timer_reg_read_cp15 is defined in
asm/arch_timer.h, which is not among the sources; for the privileged access
modes it performs the architecture's privileged-register read for that
timeline, and yields 0 for another access value. -/
def arch_timer_reg_read_cp15 (access : Access) (reg : arch_timer_reg) (hw : Hw) : Nat :=
  match access, reg with
  | .ARCH_TIMER_PHYS_ACCESS, .ARCH_TIMER_REG_CTRL => hw.reg Loc.cntp_ctl_el0 % 2 ^ 32
  | .ARCH_TIMER_PHYS_ACCESS, .ARCH_TIMER_REG_TVAL => hw.reg Loc.cntp_tval_el0 % 2 ^ 32
  | .ARCH_TIMER_VIRT_ACCESS, .ARCH_TIMER_REG_CTRL => hw.reg Loc.cntv_ctl_el0 % 2 ^ 32
  | .ARCH_TIMER_VIRT_ACCESS, .ARCH_TIMER_REG_TVAL => hw.reg Loc.cntv_tval_el0 % 2 ^ 32
  | _, _ => 0

/-- The function `arch_timer_reg_write(access, reg, val, clk)`; `val` is a `u32`
parameter, so the argument is truncated on entry. -/
def arch_timer_reg_write (access : Access) (reg : arch_timer_reg) (val : Nat) (hw : Hw) : Hw :=
  let val := val % 2 ^ 32
  if access = .ARCH_TIMER_MEM_PHYS_ACCESS then
    match reg with
    | .ARCH_TIMER_REG_CTRL => writel_relaxed_no_log val CNTP_CTL hw
    | .ARCH_TIMER_REG_TVAL => writel_relaxed_no_log val CNTP_TVAL hw
  else if access = .ARCH_TIMER_MEM_VIRT_ACCESS then
    match reg with
    | .ARCH_TIMER_REG_CTRL => writel_relaxed_no_log val CNTV_CTL hw
    | .ARCH_TIMER_REG_TVAL => writel_relaxed_no_log val CNTV_TVAL hw
  else
    arch_timer_reg_write_cp15 access reg val hw

/-- The function `arch_timer_reg_read(access, reg, clk)`, returning a `u32`. -/
def arch_timer_reg_read (access : Access) (reg : arch_timer_reg) (hw : Hw) : Nat :=
  if access = .ARCH_TIMER_MEM_PHYS_ACCESS then
    match reg with
    | .ARCH_TIMER_REG_CTRL => readl_relaxed_no_log CNTP_CTL hw
    | .ARCH_TIMER_REG_TVAL => readl_relaxed_no_log CNTP_TVAL hw
  else if access = .ARCH_TIMER_MEM_VIRT_ACCESS then
    match reg with
    | .ARCH_TIMER_REG_CTRL => readl_relaxed_no_log CNTV_CTL hw
    | .ARCH_TIMER_REG_TVAL => readl_relaxed_no_log CNTV_TVAL hw
  else
    arch_timer_reg_read_cp15 access reg hw

/-- The hardware location that an (access mode, logical register) pair denotes. -/
def reg_loc : Access → arch_timer_reg → Loc
  | .ARCH_TIMER_PHYS_ACCESS, .ARCH_TIMER_REG_CTRL => Loc.cntp_ctl_el0
  | .ARCH_TIMER_PHYS_ACCESS, .ARCH_TIMER_REG_TVAL => Loc.cntp_tval_el0
  | .ARCH_TIMER_VIRT_ACCESS, .ARCH_TIMER_REG_CTRL => Loc.cntv_ctl_el0
  | .ARCH_TIMER_VIRT_ACCESS, .ARCH_TIMER_REG_TVAL => Loc.cntv_tval_el0
  | .ARCH_TIMER_MEM_PHYS_ACCESS, .ARCH_TIMER_REG_CTRL => Loc.mem CNTP_CTL
  | .ARCH_TIMER_MEM_PHYS_ACCESS, .ARCH_TIMER_REG_TVAL => Loc.mem CNTP_TVAL
  | .ARCH_TIMER_MEM_VIRT_ACCESS, .ARCH_TIMER_REG_CTRL => Loc.mem CNTV_CTL
  | .ARCH_TIMER_MEM_VIRT_ACCESS, .ARCH_TIMER_REG_TVAL => Loc.mem CNTV_TVAL

/-! ## Timer event device -/

/-- The return value of an interrupt handler. -/
inductive irqreturn_t
  | IRQ_NONE
  | IRQ_HANDLED
  deriving DecidableEq, Repr

/-- The function `timer_handler(access, evt)`.  The callback `evt->event_handler`
is a parameter: its invocation is recorded, then it runs on the hardware. -/
def timer_handler (access : Access) (event_handler : Hw → Hw) (hw : Hw) : irqreturn_t × Hw :=
  let ctrl := arch_timer_reg_read access .ARCH_TIMER_REG_CTRL hw
  if ctrl &&& ARCH_TIMER_CTRL_IT_STAT ≠ 0 then
    let ctrl := ctrl ||| ARCH_TIMER_CTRL_IT_MASK
    let hw := arch_timer_reg_write access .ARCH_TIMER_REG_CTRL ctrl hw
    let hw := { hw with trace := hw.trace ++ [Event.event_handler] }
    (.IRQ_HANDLED, event_handler hw)
  else
    (.IRQ_NONE, hw)

/-- The function `timer_shutdown(access, clk)`. -/
def timer_shutdown (access : Access) (hw : Hw) : Int × Hw :=
  let ctrl := arch_timer_reg_read access .ARCH_TIMER_REG_CTRL hw
  let ctrl := ctrl &&& not64 ARCH_TIMER_CTRL_ENABLE
  let hw := arch_timer_reg_write access .ARCH_TIMER_REG_CTRL ctrl hw
  (0, hw)

/-- The function `set_next_event(access, evt, clk)`. -/
def set_next_event (access : Access) (evt : Nat) (hw : Hw) : Hw :=
  let ctrl := arch_timer_reg_read access .ARCH_TIMER_REG_CTRL hw
  let ctrl := ctrl ||| ARCH_TIMER_CTRL_ENABLE
  let ctrl := ctrl &&& not64 ARCH_TIMER_CTRL_IT_MASK
  let hw := arch_timer_reg_write access .ARCH_TIMER_REG_TVAL evt hw
  arch_timer_reg_write access .ARCH_TIMER_REG_CTRL ctrl hw

/-! ## Counter reader -/

/-- The function `arch_counter_get_cntvct_mem()`.  The counter frame is volatile:
`rd t off` is the value returned by the `t`-th access when it reads byte offset
`off`.  The loop has no bound in the source; `fuel` bounds the iterations of the
model, and `none` means the bound was reached.  The result is the value returned
together with the index of the next access, i.e. the number of reads made when
started at access 0. -/
def arch_counter_get_cntvct_mem (rd : Nat → Nat → Nat) : Nat → Nat → Option (Nat × Nat)
  | 0, _ => none
  | fuel + 1, t =>
    let vct_hi := rd t CNTVCT_HI % 2 ^ 32
    let vct_lo := rd (t + 1) CNTVCT_LO % 2 ^ 32
    let tmp_hi := rd (t + 2) CNTVCT_HI % 2 ^ 32
    if vct_hi ≠ tmp_hi then arch_counter_get_cntvct_mem rd fuel (t + 3)
    else some (((vct_hi <<< 32) ||| vct_lo) % 2 ^ 64, t + 3)

/-- Modelled from the spec: WARN_ON_ONCE is a kernel facility defined outside
the sources; it emits its diagnostic when the condition holds and the same site
has not emitted it before.  Input: the condition and the site's "already
warned" flag; output: whether the diagnostic is emitted now, and the new flag. -/
def WARN_ON_ONCE (cond : Bool) (warned : Bool) : Bool × Bool :=
  (cond && !warned, warned || cond)

/-- The state of the do-while loop of `__fsl_a008585_read_reg` when it exits. -/
structure fsl_loop_exit where
  _old : Nat
  _new : Nat
  _retries : Nat
  reads : Nat
  deriving DecidableEq, Repr

/-- The do-while loop of `__fsl_a008585_read_reg`, entered with `_retries = r + 1`
and with `t` reads of the register already made; `rd k` is the value returned by
the `k`-th read of the register. -/
def fsl_a008585_loop (rd : Nat → Nat) : Nat → Nat → fsl_loop_exit
  | 0, t =>
    -- `_retries--` gives 0, so the loop condition is false whatever was read
    { _old := rd t % 2 ^ 64, _new := rd (t + 1) % 2 ^ 64, _retries := 0, reads := t + 2 }
  | r + 1, t =>
    let _old := rd t % 2 ^ 64
    let _new := rd (t + 1) % 2 ^ 64
    if _old ≠ _new then fsl_a008585_loop rd r (t + 2)
    else { _old := _old, _new := _new, _retries := r + 1, reads := t + 2 }

/-- What a call of a register reader produced: the value, the number of register
reads it made, whether it emitted its diagnostic, and the "already warned" flag
of its WARN_ON_ONCE site afterwards. -/
structure read_result where
  val : Nat
  reads : Nat
  emitted : Bool
  warned : Bool
  deriving DecidableEq, Repr

/-- The statement expression `__fsl_a008585_read_reg(reg)`: `_retries` starts at
200, the loop runs, WARN_ON_ONCE(!_retries) is evaluated, the value is `_new`. -/
def __fsl_a008585_read_reg (rd : Nat → Nat) (warned : Bool) : read_result :=
  let x := fsl_a008585_loop rd 199 0
  let w := WARN_ON_ONCE (x._retries == 0) warned
  { val := x._new, reads := x.reads, emitted := w.1, warned := w.2 }

/-- A reader stored in a workaround descriptor (`u32 (*)(void)` or
`u64 (*)(void)`): given the values successive reads of its register return and
the flag of its warning site, the result of the call. -/
abbrev read_fn := (Nat → Nat) → Bool → read_result

def fsl_a008585_read_cntp_tval_el0 : read_fn := fun rd warned =>
  let x := __fsl_a008585_read_reg rd warned
  { x with val := x.val % 2 ^ 32 }

def fsl_a008585_read_cntv_tval_el0 : read_fn := fun rd warned =>
  let x := __fsl_a008585_read_reg rd warned
  { x with val := x.val % 2 ^ 32 }

def fsl_a008585_read_cntvct_el0 : read_fn := fun rd warned =>
  __fsl_a008585_read_reg rd warned

def arm64_1188873_read_cntvct_el0 : read_fn := fun rd warned =>
  { val := rd 0 % 2 ^ 64, reads := 1, emitted := false, warned := warned }

def arm64_858921_read_cntvct_el0 : read_fn := fun rd warned =>
  let old := rd 0 % 2 ^ 64
  let new := rd 1 % 2 ^ 64
  { val := if ((old ^^^ new) >>> 32) &&& 1 ≠ 0 then old else new,
    reads := 2, emitted := false, warned := warned }

/-! ## Erratum registry -/

/-- Modelled from the spec: arch_counter_get_cntvct is defined in
asm/arch_timer.h, which is not among the sources; it returns the current value
of the counter. -/
def arch_counter_get_cntvct (hw : Hw) : Nat := hw.cntvct % 2 ^ 64

/-- The function `erratum_set_next_event_tval_generic(access, evt, clk)`. -/
def erratum_set_next_event_tval_generic (access : Access) (evt : Nat) (hw : Hw) : Hw :=
  let cval := (evt % 2 ^ 64 + arch_counter_get_cntvct hw) % 2 ^ 64
  let ctrl := arch_timer_reg_read access .ARCH_TIMER_REG_CTRL hw
  let ctrl := ctrl ||| ARCH_TIMER_CTRL_ENABLE
  let ctrl := ctrl &&& not64 ARCH_TIMER_CTRL_IT_MASK
  let hw :=
    if access = .ARCH_TIMER_PHYS_ACCESS then hw.store Loc.cntp_cval_el0 cval
    else hw.store Loc.cntv_cval_el0 cval
  arch_timer_reg_write access .ARCH_TIMER_REG_CTRL ctrl hw

def erratum_set_next_event_tval_virt (evt : Nat) (hw : Hw) : Int × Hw :=
  (0, erratum_set_next_event_tval_generic .ARCH_TIMER_VIRT_ACCESS evt hw)

def erratum_set_next_event_tval_phys (evt : Nat) (hw : Hw) : Int × Hw :=
  (0, erratum_set_next_event_tval_generic .ARCH_TIMER_PHYS_ACCESS evt hw)

/-- The `enum arch_timer_erratum_match_type`. -/
inductive arch_timer_erratum_match_type
  | ate_match_dt
  | ate_match_local_cap_id
  | ate_match_acpi_oem_info
  deriving DecidableEq, Repr

/-- The `struct ate_acpi_oem_info`: `oem_id` is 7 bytes, `oem_table_id` 9 bytes. -/
structure ate_acpi_oem_info where
  oem_id : List Nat
  oem_table_id : List Nat
  oem_revision : Nat
  deriving DecidableEq, Repr

/-- The fields of `struct acpi_table_header` the driver reads: `oem_id` is 6
bytes, `oem_table_id` 8 bytes. -/
structure acpi_table_header where
  oem_id : List Nat
  oem_table_id : List Nat
  oem_revision : Nat
  deriving DecidableEq, Repr

/-- A device-tree node, as far as the driver queries it. -/
structure device_node where
  of_property_read_bool : String → Bool
  of_property_read_u32 : String → Option Nat

/-- The `const void *id` of a descriptor: a device-tree property name, a CPU
capability number, or an array of OEM records. -/
inductive erratum_id
  | dt (name : String)
  | cap (n : Nat)
  | oem (info : List ate_acpi_oem_info)
  deriving DecidableEq, Repr

/-- The `void *arg` handed to a match function. -/
inductive match_arg
  | null
  | np (n : device_node)
  | table (t : acpi_table_header)

/-- A function stored in `set_next_event_phys` / `set_next_event_virt`. -/
abbrev set_next_event_fn := Nat → Hw → Int × Hw

/-- The `struct arch_timer_erratum_workaround`; a null function pointer is `none`. -/
structure arch_timer_erratum_workaround where
  match_type : arch_timer_erratum_match_type
  id : erratum_id
  desc : String
  read_cntp_tval_el0 : Option read_fn := none
  read_cntv_tval_el0 : Option read_fn := none
  read_cntvct_el0 : Option read_fn := none
  set_next_event_phys : Option set_next_event_fn := none
  set_next_event_virt : Option set_next_event_fn := none

/-- A C string stored in a `char[n]`: the bytes of `s`, zero-filled to `n`. -/
def cstr (s : String) (n : Nat) : List Nat :=
  let b := s.toList.map Char.toNat
  b ++ List.replicate (n - b.length) 0

def hisi_161010101_oem_info : List ate_acpi_oem_info :=
  [ { oem_id := cstr "HISI  " 7, oem_table_id := cstr "HIP05   " 9, oem_revision := 0 },
    { oem_id := cstr "HISI  " 7, oem_table_id := cstr "HIP06   " 9, oem_revision := 0 },
    { oem_id := cstr "HISI  " 7, oem_table_id := cstr "HIP07   " 9, oem_revision := 0 },
    { oem_id := cstr "" 7, oem_table_id := cstr "" 9, oem_revision := 0 } ]

/-- What the driver takes from the rest of the kernel: the build configuration,
the capability test of the running core, the set of possible cores, and the
functions and constants the catalog names that are defined outside the sources. -/
structure Env where
  CONFIG_FSL_ERRATUM_A008585 : Bool
  CONFIG_ARM64_ERRATUM_1188873 : Bool
  CONFIG_ARM64_ERRATUM_858921 : Bool
  ARM64_WORKAROUND_1188873 : Nat
  ARM64_WORKAROUND_858921 : Nat
  hisi_161010101_read_cntp_tval_el0 : read_fn
  hisi_161010101_read_cntv_tval_el0 : read_fn
  hisi_161010101_read_cntvct_el0 : read_fn
  this_cpu_has_cap : Nat → Nat → Bool
  cpu_possible : Nat → Bool

/-- The catalog `ool_workarounds[]`, in declaration order. -/
def ool_workarounds (env : Env) : List arch_timer_erratum_workaround :=
  (if env.CONFIG_FSL_ERRATUM_A008585 then
    [ { match_type := .ate_match_dt,
        id := .dt "fsl,erratum-a008585",
        desc := "Freescale erratum a005858",
        read_cntp_tval_el0 := some fsl_a008585_read_cntp_tval_el0,
        read_cntv_tval_el0 := some fsl_a008585_read_cntv_tval_el0,
        read_cntvct_el0 := some fsl_a008585_read_cntvct_el0,
        set_next_event_phys := some erratum_set_next_event_tval_phys,
        set_next_event_virt := some erratum_set_next_event_tval_virt } ]
   else []) ++
  (if env.CONFIG_ARM64_ERRATUM_1188873 then
    [ { match_type := .ate_match_local_cap_id,
        id := .cap env.ARM64_WORKAROUND_1188873,
        desc := "ARM erratum 1188873",
        read_cntvct_el0 := some arm64_1188873_read_cntvct_el0,
        set_next_event_phys := some erratum_set_next_event_tval_phys,
        set_next_event_virt := some erratum_set_next_event_tval_virt },
      { match_type := .ate_match_acpi_oem_info,
        id := .oem hisi_161010101_oem_info,
        desc := "HiSilicon erratum 161010101",
        read_cntp_tval_el0 := some env.hisi_161010101_read_cntp_tval_el0,
        read_cntv_tval_el0 := some env.hisi_161010101_read_cntv_tval_el0,
        read_cntvct_el0 := some env.hisi_161010101_read_cntvct_el0,
        set_next_event_phys := some erratum_set_next_event_tval_phys,
        set_next_event_virt := some erratum_set_next_event_tval_virt } ]
   else []) ++
  (if env.CONFIG_ARM64_ERRATUM_858921 then
    [ { match_type := .ate_match_local_cap_id,
        id := .cap env.ARM64_WORKAROUND_858921,
        desc := "ARM erratum 858921",
        read_cntvct_el0 := some arm64_858921_read_cntvct_el0 } ]
   else [])

/-- The type `ate_match_fn_t`; the running core is an explicit argument. -/
abbrev ate_match_fn_t := Nat → arch_timer_erratum_workaround → match_arg → Bool

/-- The function `arch_timer_check_dt_erratum(wa, arg)`. -/
def arch_timer_check_dt_erratum : ate_match_fn_t := fun _cpu wa arg =>
  match arg, wa.id with
  | .np n, .dt name => n.of_property_read_bool name
  | _, _ => false

/-- The function `arch_timer_check_local_cap_erratum(wa, arg)`; `this_cpu_has_cap`
is the capability test of the kernel, for the running core. -/
def arch_timer_check_local_cap_erratum (env : Env) : ate_match_fn_t := fun cpu wa _arg =>
  match wa.id with
  | .cap n => env.this_cpu_has_cap cpu n
  | _ => false

/-- The test `memcmp(info, &empty_oem_info, sizeof(*info))` being zero: every
byte of the record is zero. -/
def oem_info_is_empty (info : ate_acpi_oem_info) : Bool :=
  info.oem_id.all (· == 0) && info.oem_table_id.all (· == 0) && info.oem_revision == 0

def ACPI_OEM_ID_SIZE : Nat := 6
def ACPI_OEM_TABLE_ID_SIZE : Nat := 8

/-- The while loop of `arch_timer_check_acpi_oem_erratum` over the records from
`info` on; `none` when the walk leaves the array without meeting the sentinel. -/
def arch_timer_check_acpi_oem_erratum_loop (table : acpi_table_header) :
    List ate_acpi_oem_info → Option Bool
  | [] => none
  | info :: rest =>
    if oem_info_is_empty info then some false
    else if info.oem_id.take ACPI_OEM_ID_SIZE = table.oem_id.take ACPI_OEM_ID_SIZE ∧
        info.oem_table_id.take ACPI_OEM_TABLE_ID_SIZE =
          table.oem_table_id.take ACPI_OEM_TABLE_ID_SIZE ∧
        info.oem_revision = table.oem_revision then some true
    else arch_timer_check_acpi_oem_erratum_loop table rest

/-- The function `arch_timer_check_acpi_oem_erratum(wa, arg)`; on an array
without sentinel (undefined in C) the model answers `false`. -/
def arch_timer_check_acpi_oem_erratum : ate_match_fn_t := fun _cpu wa arg =>
  match arg, wa.id with
  | .table t, .oem info => (arch_timer_check_acpi_oem_erratum_loop t info).getD false
  | _, _ => false

/-- The for loop of `arch_timer_iterate_errata` over the remaining entries. -/
def arch_timer_iterate_errata_loop (type : arch_timer_erratum_match_type)
    (match_fn : arch_timer_erratum_workaround → match_arg → Bool) (arg : match_arg) :
    List arch_timer_erratum_workaround → Option arch_timer_erratum_workaround
  | [] => none
  | wa :: rest =>
    if wa.match_type ≠ type then arch_timer_iterate_errata_loop type match_fn arg rest
    else if match_fn wa arg then some wa
    else arch_timer_iterate_errata_loop type match_fn arg rest

/-- The function `arch_timer_iterate_errata(type, match_fn, arg)`. -/
def arch_timer_iterate_errata (env : Env) (type : arch_timer_erratum_match_type)
    (match_fn : arch_timer_erratum_workaround → match_arg → Bool) (arg : match_arg) :
    Option arch_timer_erratum_workaround :=
  arch_timer_iterate_errata_loop type match_fn arg (ool_workarounds env)

/-- The registry state: the per-core variable `timer_unstable_counter_workaround`
(indexed by core, `none` is NULL), the static key `arch_timer_read_ool_enabled`,
`clocksource_counter.archdata.vdso_direct` and `vdso_default`. -/
structure Registry where
  timer_unstable_counter_workaround : Nat → Option arch_timer_erratum_workaround
  arch_timer_read_ool_enabled : Bool
  vdso_direct : Bool
  vdso_default : Bool

/-- The function `arch_timer_enable_workaround(wa, local)`, run on core `cpu`. -/
def arch_timer_enable_workaround (env : Env) (wa : arch_timer_erratum_workaround)
    (local_ : Bool) (cpu : Nat) (r : Registry) : Registry :=
  let r : Registry :=
    if local_ then
      { r with timer_unstable_counter_workaround :=
                 Function.update r.timer_unstable_counter_workaround cpu (some wa) }
    else
      { r with timer_unstable_counter_workaround := fun i =>
                 if env.cpu_possible i then some wa else r.timer_unstable_counter_workaround i }
  let r : Registry := { r with arch_timer_read_ool_enabled := true }
  if wa.read_cntvct_el0.isSome then
    { r with vdso_direct := false, vdso_default := false }
  else r

/-- The test `needs_unstable_timer_counter_workaround()`: the static key. -/
def needs_unstable_timer_counter_workaround (r : Registry) : Bool :=
  r.arch_timer_read_ool_enabled

/-- The function `arch_timer_check_ool_workaround(type, arg)`, run on core `cpu`. -/
def arch_timer_check_ool_workaround (env : Env) (type : arch_timer_erratum_match_type)
    (arg : match_arg) (cpu : Nat) (r : Registry) : Registry :=
  let sel : ate_match_fn_t × Bool :=
    match type with
    | .ate_match_dt => (arch_timer_check_dt_erratum, false)
    | .ate_match_local_cap_id => (arch_timer_check_local_cap_erratum env, true)
    | .ate_match_acpi_oem_info => (arch_timer_check_acpi_oem_erratum, false)
  match arch_timer_iterate_errata env type (sel.1 cpu) arg with
  | none => r
  | some wa =>
    if needs_unstable_timer_counter_workaround r ∧
        (r.timer_unstable_counter_workaround cpu).isSome then r
    else arch_timer_enable_workaround env wa sel.2 cpu r

/-- The statement expression `erratum_handler(fn, r, ...)` on core `cpu`: `some ret`
when it evaluates to true, having called the override, `none` when false. -/
def erratum_handler (fn : arch_timer_erratum_workaround → Option set_next_event_fn)
    (r : Registry) (cpu : Nat) (evt : Nat) (hw : Hw) : Option (Int × Hw) :=
  if needs_unstable_timer_counter_workaround r then
    match r.timer_unstable_counter_workaround cpu with
    | some __wa =>
      match fn __wa with
      | some f => some (f evt hw)
      | none => none
    | none => none
  else none

/-- The function `arch_timer_this_cpu_has_cntvct_wa()`. -/
def arch_timer_this_cpu_has_cntvct_wa (r : Registry) (cpu : Nat) : Bool :=
  match r.timer_unstable_counter_workaround cpu with
  | some wa => wa.read_cntvct_el0.isSome
  | none => false

/-- The function `arch_timer_set_next_event_virt(evt, clk)`. -/
def arch_timer_set_next_event_virt (r : Registry) (cpu : Nat) (evt : Nat) (hw : Hw) :
    Int × Hw :=
  match erratum_handler (·.set_next_event_virt) r cpu evt hw with
  | some ret => ret
  | none => (0, set_next_event .ARCH_TIMER_VIRT_ACCESS evt hw)

/-- The function `arch_timer_set_next_event_phys(evt, clk)`. -/
def arch_timer_set_next_event_phys (r : Registry) (cpu : Nat) (evt : Nat) (hw : Hw) :
    Int × Hw :=
  match erratum_handler (·.set_next_event_phys) r cpu evt hw with
  | some ret => ret
  | none => (0, set_next_event .ARCH_TIMER_PHYS_ACCESS evt hw)

/-- The function `arch_timer_set_next_event_virt_mem(evt, clk)`. -/
def arch_timer_set_next_event_virt_mem (evt : Nat) (hw : Hw) : Int × Hw :=
  (0, set_next_event .ARCH_TIMER_MEM_VIRT_ACCESS evt hw)

/-- The function `arch_timer_of_configure_rate(rate, np)`, as a transformer of
the global `arch_timer_rate` (a `u32`). -/
def arch_timer_of_configure_rate (rate : Nat) (np : device_node) (arch_timer_rate : Nat) : Nat :=
  if arch_timer_rate ≠ 0 then arch_timer_rate
  else
    match np.of_property_read_u32 "clock-frequency" with
    | some v => v % 2 ^ 32
    | none => rate % 2 ^ 32

/-! ## Erratum registry: call recording, operation sequences, counter registration -/

/-- The for loop of `arch_timer_iterate_errata` once more, returning beside the
result the entries on which `match_fn` is called, in call order. -/
def arch_timer_iterate_errata_calls (type : arch_timer_erratum_match_type)
    (match_fn : arch_timer_erratum_workaround → match_arg → Bool) (arg : match_arg) :
    List arch_timer_erratum_workaround →
      Option arch_timer_erratum_workaround × List arch_timer_erratum_workaround
  | [] => (none, [])
  | wa :: rest =>
    if wa.match_type ≠ type then arch_timer_iterate_errata_calls type match_fn arg rest
    else if match_fn wa arg then (some wa, [wa])
    else
      ((arch_timer_iterate_errata_calls type match_fn arg rest).1,
       wa :: (arch_timer_iterate_errata_calls type match_fn arg rest).2)

/-- The `enum arch_timer_ppi_nr`. -/
inductive arch_timer_ppi_nr
  | ARCH_TIMER_PHYS_SECURE_PPI
  | ARCH_TIMER_PHYS_NONSECURE_PPI
  | ARCH_TIMER_VIRT_PPI
  | ARCH_TIMER_HYP_PPI
  deriving DecidableEq, Repr

/-- The functions `arch_timer_read_counter` may point to. -/
inductive counter_read_fn
  | arch_counter_get_cntvct
  | arch_counter_get_cntpct
  | arch_counter_get_cntvct_mem
  deriving DecidableEq, Repr

/-- What `arch_counter_register` reads besides its argument: the type bit
ARCH_TIMER_TYPE_CP15 (defined outside the sources), the build option
CONFIG_ARM64, and the globals `arch_timer_uses_ppi`, `arch_counter_suspend_stop`. -/
structure counter_setup where
  ARCH_TIMER_TYPE_CP15 : Nat
  CONFIG_ARM64 : Bool
  arch_timer_uses_ppi : arch_timer_ppi_nr
  arch_counter_suspend_stop : Bool

/-- The part of the clocksource state `arch_counter_register` writes besides
`vdso_direct`: the pointer `arch_timer_read_counter` and the flag
CLOCK_SOURCE_SUSPEND_NONSTOP of `clocksource_counter.flags`. -/
structure clocksource_state where
  arch_timer_read_counter : counter_read_fn
  CLOCK_SOURCE_SUSPEND_NONSTOP : Bool
  deriving DecidableEq, Repr

/-- The function `arch_counter_register(type)`, up to the calls that hand the
counter to the clocksource, timecounter and sched_clock frameworks. -/
def arch_counter_register (cs : counter_setup) (type : Nat) (r : Registry)
    (c : clocksource_state) : Registry × clocksource_state :=
  let rc : Registry × clocksource_state :=
    if type &&& cs.ARCH_TIMER_TYPE_CP15 ≠ 0 then
      let c : clocksource_state :=
        if cs.CONFIG_ARM64 ∨ cs.arch_timer_uses_ppi = .ARCH_TIMER_VIRT_PPI then
          { c with arch_timer_read_counter := .arch_counter_get_cntvct }
        else
          { c with arch_timer_read_counter := .arch_counter_get_cntpct }
      ({ r with vdso_direct := r.vdso_default }, c)
    else
      (r, { c with arch_timer_read_counter := .arch_counter_get_cntvct_mem })
  if ¬ cs.arch_counter_suspend_stop then
    (rc.1, { rc.2 with CLOCK_SOURCE_SUSPEND_NONSTOP := true })
  else rc

/-- The registry before any workaround is enabled: the per-core variable is
NULL on every core, the static key is false, `vdso_default` is true and
`vdso_direct` is not set. -/
def registry_init : Registry :=
  { timer_unstable_counter_workaround := fun _ => none,
    arch_timer_read_ool_enabled := false, vdso_direct := false, vdso_default := true }

/-- One call that acts on the registry. -/
inductive registry_op
  | enable (wa : arch_timer_erratum_workaround) (local_ : Bool) (cpu : Nat)
  | check (type : arch_timer_erratum_match_type) (arg : match_arg) (cpu : Nat)
  | counter_register (cs : counter_setup) (type : Nat) (c : clocksource_state)

/-- The effect of one call on the registry. -/
def apply_op (env : Env) (r : Registry) : registry_op → Registry
  | .enable wa local_ cpu => arch_timer_enable_workaround env wa local_ cpu r
  | .check type arg cpu => arch_timer_check_ool_workaround env type arg cpu r
  | .counter_register cs type c => (arch_counter_register cs type r c).1

/-- The effect of a sequence of calls, first call first. -/
def run_ops (env : Env) (ops : List registry_op) (r : Registry) : Registry :=
  ops.foldl (apply_op env) r

/-! ## Per-core lifecycle -/

/-- The bit masks of the CNTKCTL register the driver uses; they are defined in
clocksource/arm_arch_timer.h, which is not among the sources. -/
structure cntkctl_bits where
  ARCH_TIMER_USR_PCT_ACCESS_EN : Nat
  ARCH_TIMER_USR_VCT_ACCESS_EN : Nat
  ARCH_TIMER_VIRT_EVT_EN : Nat
  ARCH_TIMER_EVT_TRIGGER_SHIFT : Nat
  ARCH_TIMER_EVT_TRIGGER_MASK : Nat
  ARCH_TIMER_USR_VT_ACCESS_EN : Nat
  ARCH_TIMER_USR_PT_ACCESS_EN : Nat

/-- The function `arch_counter_set_user_access()` on core `cpu`, as a transformer
of the `u32` register CNTKCTL (`arch_timer_get_cntkctl` / `arch_timer_set_cntkctl`);
`vct_access` is IS_ENABLED(CONFIG_ARM_ARCH_TIMER_VCT_ACCESS). -/
def arch_counter_set_user_access (K : cntkctl_bits) (vct_access : Bool) (r : Registry)
    (cpu : Nat) (cntkctl : Nat) : Nat :=
  let cntkctl := cntkctl % 2 ^ 32
  let cntkctl := (cntkctl &&& not64 (K.ARCH_TIMER_USR_PT_ACCESS_EN
      ||| K.ARCH_TIMER_USR_VT_ACCESS_EN
      ||| K.ARCH_TIMER_USR_VCT_ACCESS_EN
      ||| K.ARCH_TIMER_VIRT_EVT_EN
      ||| K.ARCH_TIMER_USR_PCT_ACCESS_EN)) % 2 ^ 32
  let cntkctl :=
    if arch_timer_this_cpu_has_cntvct_wa r cpu then cntkctl
    else if vct_access then (cntkctl ||| K.ARCH_TIMER_USR_VCT_ACCESS_EN) % 2 ^ 32
    else (cntkctl &&& not64 K.ARCH_TIMER_USR_VCT_ACCESS_EN) % 2 ^ 32
  cntkctl

/-- Modelled from the spec: fls is a kernel bit operation defined outside the
sources; `fls(x) - 1` is the index, counted from 0, of the last (most
significant) set bit of `x`, and `fls(0)` is 0. -/
def fls (x : Nat) : Nat := if x = 0 then 0 else Nat.log2 x + 1

/-- Modelled from the spec: BIT is a kernel bit operation defined outside the
sources; `BIT(n)` is the word with only bit `n` set. -/
def BIT (n : Nat) : Nat := 2 ^ n

/-- The local `evt_stream_div` of `arch_timer_configure_evtstream`;
`EVT_STREAM_FREQ` is ARCH_TIMER_EVT_STREAM_FREQ, defined outside the sources. -/
def evt_stream_div (EVT_STREAM_FREQ : Nat) (arch_timer_rate : Nat) : Nat :=
  arch_timer_rate % 2 ^ 32 / EVT_STREAM_FREQ / 2

/-- The local `lsb` of `arch_timer_configure_evtstream` when the enable call is
reached. -/
def evt_stream_lsb (EVT_STREAM_FREQ : Nat) (arch_timer_rate : Nat) : Int :=
  let d := evt_stream_div EVT_STREAM_FREQ arch_timer_rate
  let lsb : Int := (fls d : Int) - 1
  if lsb > 0 ∧ d &&& BIT (lsb - 1).toNat ≠ 0 then lsb + 1 else lsb

/-- The argument `max(0, min(lsb, 15))` of the enable call. -/
def evt_stream_divider (EVT_STREAM_FREQ : Nat) (arch_timer_rate : Nat) : Int :=
  max 0 (min (evt_stream_lsb EVT_STREAM_FREQ arch_timer_rate) 15)

/-- The hardware-capability words `elf_hwcap` and `compat_elf_hwcap`, which
`arch_timer_evtstrm_enable` updates; they are declared outside the sources. -/
structure hwcap_state where
  elf_hwcap : Nat
  compat_elf_hwcap : Nat
  deriving DecidableEq, Repr

/-- The function `arch_timer_evtstrm_enable(divider)`, as a transformer of CNTKCTL
and of the capability words. -/
def arch_timer_evtstrm_enable (K : cntkctl_bits) (HWCAP_EVTSTRM COMPAT_HWCAP_EVTSTRM : Nat)
    (CONFIG_COMPAT : Bool) (divider : Int) (cntkctl : Nat) (h : hwcap_state) :
    Nat × hwcap_state :=
  let cntkctl := cntkctl % 2 ^ 32
  let cntkctl := (cntkctl &&& not64 K.ARCH_TIMER_EVT_TRIGGER_MASK) % 2 ^ 32
  let cntkctl := (cntkctl ||| ((divider.toNat <<< K.ARCH_TIMER_EVT_TRIGGER_SHIFT)
      ||| K.ARCH_TIMER_VIRT_EVT_EN)) % 2 ^ 32
  let h : hwcap_state := { h with elf_hwcap := h.elf_hwcap ||| HWCAP_EVTSTRM }
  let h : hwcap_state :=
    if CONFIG_COMPAT then { h with compat_elf_hwcap := h.compat_elf_hwcap ||| COMPAT_HWCAP_EVTSTRM }
    else h
  (cntkctl, h)

/-- The function `arch_timer_configure_evtstream()`. -/
def arch_timer_configure_evtstream (K : cntkctl_bits) (HWCAP_EVTSTRM COMPAT_HWCAP_EVTSTRM : Nat)
    (CONFIG_COMPAT : Bool) (EVT_STREAM_FREQ : Nat) (arch_timer_rate : Nat)
    (cntkctl : Nat) (h : hwcap_state) : Nat × hwcap_state :=
  arch_timer_evtstrm_enable K HWCAP_EVTSTRM COMPAT_HWCAP_EVTSTRM CONFIG_COMPAT
    (evt_stream_divider EVT_STREAM_FREQ arch_timer_rate) cntkctl h

/-- The function `check_ppi_trigger(irq)`: the `u32` it returns and the warnings
it prints.  `irq_get_trigger_type` and the constants IRQF_TRIGGER_HIGH and
IRQF_TRIGGER_LOW are defined outside the sources. -/
def check_ppi_trigger (IRQF_TRIGGER_HIGH IRQF_TRIGGER_LOW : Nat)
    (irq_get_trigger_type : Int → Nat) (irq : Int) : Nat × List String :=
  let flags := irq_get_trigger_type irq % 2 ^ 32
  if flags ≠ IRQF_TRIGGER_HIGH ∧ flags ≠ IRQF_TRIGGER_LOW then
    (IRQF_TRIGGER_LOW,
     ["WARNING: Invalid trigger for IRQ" ++ toString irq ++ ", assuming level low",
      "WARNING: Please fix your firmware"])
  else (flags, [])

/-! ## PPI selector -/

/-- The function `arch_timer_select_ppi()`; `is_kernel_in_hyp_mode` and
`is_hyp_mode_available` are the answers of the kernel functions of those names,
`arch_timer_ppi` is the global array, `CONFIG_ARM64` is IS_ENABLED(CONFIG_ARM64). -/
def arch_timer_select_ppi (is_kernel_in_hyp_mode is_hyp_mode_available : Bool)
    (arch_timer_ppi : arch_timer_ppi_nr → Int) (CONFIG_ARM64 : Bool) : arch_timer_ppi_nr :=
  if is_kernel_in_hyp_mode then .ARCH_TIMER_HYP_PPI
  else if ¬ is_hyp_mode_available ∧ arch_timer_ppi .ARCH_TIMER_VIRT_PPI ≠ 0 then
    .ARCH_TIMER_VIRT_PPI
  else if CONFIG_ARM64 then .ARCH_TIMER_PHYS_NONSECURE_PPI
  else .ARCH_TIMER_PHYS_SECURE_PPI

/-! ## Clock event device setup -/

/-- A register file in which every register holds `v`, with an empty trace. -/
def hw_const (v : Nat) : Hw := { reg := fun _ => v, cntvct := 0, trace := [] }

/-- A counter frame whose high half always reads 7 and whose low half reads 9. -/
def rd_stable : Nat → Nat → Nat := fun _t off => if off = CNTVCT_HI then 7 else 9

/-- A counter frame whose high half reads 0 at access 0, 1 at accesses 1 to 3 and
2 afterwards; a read of the low half at access `t` returns `100 + t`. -/
def rd_moving : Nat → Nat → Nat := fun t off =>
  if off = CNTVCT_HI then (if t = 0 then 0 else if t ≤ 3 then 1 else 2) else 100 + t

/-- A counter frame whose high half reads 0 at access 0 and 1 afterwards; a read
of the low half at access `t` returns `100 + t`. -/
def rd_settled : Nat → Nat → Nat := fun t off =>
  if off = CNTVCT_HI then (if t = 0 then 0 else 1) else 100 + t

/-- A register whose successive reads alternate 0, 1, 0, 1, ... -/
def rd_alternating : Nat → Nat := fun t => t % 2

/-- A device-tree node without any property. -/
def np_empty : device_node :=
  { of_property_read_bool := fun _ => false, of_property_read_u32 := fun _ => none }

/-- An override for the virtual arm operation that only records its call. -/
def double_set_next_event_virt : set_next_event_fn := fun evt hw =>
  (0, { hw with trace := hw.trace ++ [Event.override_call 1 evt] })

/-- A descriptor supplying the recording override. -/
def wa_double : arch_timer_erratum_workaround :=
  { match_type := .ate_match_local_cap_id, id := .cap 0, desc := "test double",
    set_next_event_virt := some double_set_next_event_virt }

/-- A registry with the flag enabled and `wa_double` active on every core. -/
def registry_double : Registry :=
  { timer_unstable_counter_workaround := fun _ => some wa_double,
    arch_timer_read_ool_enabled := true, vdso_direct := true, vdso_default := true }

/-- A reader standing for the HiSilicon readers, which the sources do not define. -/
def sample_reader : read_fn := fun rd warned =>
  { val := rd 0 % 2 ^ 64, reads := 1, emitted := false, warned := warned }

/-- A build with every erratum option on; capability 1 is erratum 1188873,
capability 2 is erratum 858921, every core has capability 2 only, cores 0 to 3
are possible. -/
def env_sample : Env :=
  { CONFIG_FSL_ERRATUM_A008585 := true,
    CONFIG_ARM64_ERRATUM_1188873 := true,
    CONFIG_ARM64_ERRATUM_858921 := true,
    ARM64_WORKAROUND_1188873 := 1,
    ARM64_WORKAROUND_858921 := 2,
    hisi_161010101_read_cntp_tval_el0 := sample_reader,
    hisi_161010101_read_cntv_tval_el0 := sample_reader,
    hisi_161010101_read_cntvct_el0 := sample_reader,
    this_cpu_has_cap := fun _cpu cap => cap == 2,
    cpu_possible := fun cpu => decide (cpu < 4) }

/-- The catalog entry for erratum 1188873 of `env_sample`. -/
def wa_1188873 : arch_timer_erratum_workaround :=
  { match_type := .ate_match_local_cap_id, id := .cap 1, desc := "ARM erratum 1188873",
    read_cntvct_el0 := some arm64_1188873_read_cntvct_el0,
    set_next_event_phys := some erratum_set_next_event_tval_phys,
    set_next_event_virt := some erratum_set_next_event_tval_virt }

/-- A registry in which core 0 already runs the 1188873 workaround. -/
def registry_busy : Registry :=
  { timer_unstable_counter_workaround := fun cpu => if cpu = 0 then some wa_1188873 else none,
    arch_timer_read_ool_enabled := true, vdso_direct := false, vdso_default := false }

/-- A device-tree node on which every boolean property is present. -/
def np_all : device_node :=
  { of_property_read_bool := fun _ => true, of_property_read_u32 := fun _ => none }

/-- The catalog entry for erratum 858921 of `env_sample`. -/
def wa_858921 : arch_timer_erratum_workaround :=
  { match_type := .ate_match_local_cap_id, id := .cap 2, desc := "ARM erratum 858921",
    read_cntvct_el0 := some arm64_858921_read_cntvct_el0 }

/-- A descriptor without any override. -/
def wa_plain : arch_timer_erratum_workaround :=
  { match_type := .ate_match_dt, id := .dt "none", desc := "no override" }

/-- A counter registration of the privileged timers on an arm64 build. -/
def counter_setup_sample : counter_setup :=
  { ARCH_TIMER_TYPE_CP15 := 1, CONFIG_ARM64 := true,
    arch_timer_uses_ppi := .ARCH_TIMER_VIRT_PPI, arch_counter_suspend_stop := false }

/-- The clocksource state before registration. -/
def clocksource_sample : clocksource_state :=
  { arch_timer_read_counter := .arch_counter_get_cntvct, CLOCK_SOURCE_SUSPEND_NONSTOP := false }

/-- The CNTKCTL layout of the arm64 kernel headers: bit0 user physical counter,
bit1 user virtual counter, bit2 virtual event stream, bits 4 to 7 event trigger,
bit8 user virtual timer, bit9 user physical timer. -/
def cntkctl_sample : cntkctl_bits :=
  { ARCH_TIMER_USR_PCT_ACCESS_EN := 1,
    ARCH_TIMER_USR_VCT_ACCESS_EN := 2,
    ARCH_TIMER_VIRT_EVT_EN := 4,
    ARCH_TIMER_EVT_TRIGGER_SHIFT := 4,
    ARCH_TIMER_EVT_TRIGGER_MASK := 0xf0,
    ARCH_TIMER_USR_VT_ACCESS_EN := 256,
    ARCH_TIMER_USR_PT_ACCESS_EN := 512 }

/-- A register file in which every register holds 6 (InterruptMask and
InterruptStatus), with the counter at 1000. -/
def hw_counting : Hw := { reg := fun _ => 6, cntvct := 1000, trace := [] }

/-- A PPI array with only the virtual and the non-secure physical lines mapped. -/
def ppi_sample : arch_timer_ppi_nr → Int
  | .ARCH_TIMER_VIRT_PPI => 27
  | .ARCH_TIMER_PHYS_NONSECURE_PPI => 30
  | _ => 0

/-- A device-tree node whose clock-frequency property reads 19200000. -/
def np_clock : device_node :=
  { of_property_read_bool := fun _ => true,
    of_property_read_u32 := fun name => if name = "clock-frequency" then some 19200000 else none }

/-- A registry with the flag enabled and no workaround on any core. -/
def registry_flag_only : Registry :=
  { timer_unstable_counter_workaround := fun _ => none,
    arch_timer_read_ool_enabled := true, vdso_direct := true, vdso_default := true }

/-- A counter whose two reads straddle a carry into bit 32. -/
def rd_carry : Nat → Nat := fun t => if t = 0 then 0xffffffff else 0x100000000

/-- A registry with the flag enabled and the 858921 workaround, which supplies no
arm override, on every core. -/
def registry_858921 : Registry :=
  { timer_unstable_counter_workaround := fun _ => some wa_858921,
    arch_timer_read_ool_enabled := true, vdso_direct := false, vdso_default := false }

/-- A register whose reads disagree on attempts 1 to 199 and agree, on 5, from
attempt 200 on. -/
def rd_late : Nat → Nat := fun t => if t < 398 then t % 2 else 5

/-- A register whose reads disagree on attempts 1 to 3 and agree, on 5, from
attempt 4 on. -/
def rd_early : Nat → Nat := fun t => if t < 6 then t % 2 else 5

/-- A firmware table header with OEM id "HISI  ", table id "HIP06   ", revision 0. -/
def table_hip06 : acpi_table_header :=
  { oem_id := cstr "HISI  " 6, oem_table_id := cstr "HIP06   " 8, oem_revision := 0 }

/-- A firmware table header of another vendor. -/
def table_other : acpi_table_header :=
  { oem_id := cstr "ACME  " 6, oem_table_id := cstr "HIP06   " 8, oem_revision := 0 }

theorem arch_timer_reg_write_eq (access : Access) (reg : arch_timer_reg) (val : Nat) (hw : Hw) :
    arch_timer_reg_write access reg val hw = hw.store (reg_loc access reg) (val % 2 ^ 32) := by
  cases access <;> cases reg <;>
    simp [arch_timer_reg_write, arch_timer_reg_write_cp15, writel_relaxed_no_log, reg_loc]

theorem arch_timer_reg_read_eq (access : Access) (reg : arch_timer_reg) (hw : Hw) :
    arch_timer_reg_read access reg hw = hw.reg (reg_loc access reg) % 2 ^ 32 := by
  cases access <;> cases reg <;>
    simp [arch_timer_reg_read, arch_timer_reg_read_cp15, readl_relaxed_no_log, reg_loc]

theorem arch_timer_reg_read_lt (access : Access) (reg : arch_timer_reg) (hw : Hw) :
    arch_timer_reg_read access reg hw < 2 ^ 32 := by
  rw [arch_timer_reg_read_eq]
  exact Nat.mod_lt _ (by norm_num)

theorem reg_loc_ctrl_ne_tval (access : Access) :
    reg_loc access .ARCH_TIMER_REG_CTRL ≠ reg_loc access .ARCH_TIMER_REG_TVAL := by
  cases access <;> simp [reg_loc, CNTP_CTL, CNTP_TVAL, CNTV_CTL, CNTV_TVAL]

theorem testBit_not64 (x i : Nat) :
    (not64 x).testBit i = xor (decide (i < 64)) (x.testBit i) := by
  unfold not64
  rw [Nat.testBit_xor, Nat.testBit_two_pow_sub_one]

theorem testBit_ENABLE (i : Nat) : ARCH_TIMER_CTRL_ENABLE.testBit i = decide (i = 0) := by
  have h := @Nat.testBit_two_pow 0 i
  simpa [ARCH_TIMER_CTRL_ENABLE, eq_comm] using h

theorem testBit_IT_MASK (i : Nat) : ARCH_TIMER_CTRL_IT_MASK.testBit i = decide (i = 1) := by
  have h := @Nat.testBit_two_pow 1 i
  simpa [ARCH_TIMER_CTRL_IT_MASK, eq_comm] using h

theorem and_one_eq_zero_of_testBit {x : Nat} (h : x.testBit 0 = false) :
    x &&& ARCH_TIMER_CTRL_ENABLE = 0 := by
  apply Nat.eq_of_testBit_eq
  intro i
  rw [Nat.testBit_and, testBit_ENABLE]
  by_cases hi : i = 0
  · subst hi; simp [h]
  · simp [hi]

theorem and_not64_lt {c : Nat} (x : Nat) (h : c < 2 ^ 32) : c &&& not64 x < 2 ^ 32 :=
  lt_of_le_of_lt Nat.and_le_left h

theorem store_reg_same (hw : Hw) (l : Loc) (v : Nat) : (hw.store l v).reg l = v := by
  simp [Hw.store]

theorem or_enable_and_not_mask_lt {c : Nat} (h : c < 2 ^ 32) :
    (c ||| ARCH_TIMER_CTRL_ENABLE) &&& not64 ARCH_TIMER_CTRL_IT_MASK < 2 ^ 32 := by
  apply and_not64_lt
  exact Nat.or_lt_two_pow h (by norm_num [ARCH_TIMER_CTRL_ENABLE])

theorem or_mask_lt {c : Nat} (h : c < 2 ^ 32) : c ||| ARCH_TIMER_CTRL_IT_MASK < 2 ^ 32 :=
  Nat.or_lt_two_pow h (by norm_num [ARCH_TIMER_CTRL_IT_MASK])

theorem set_next_event_trace (access : Access) (evt : Nat) (hw : Hw) :
    (set_next_event access evt hw).trace = hw.trace ++
      [Event.write (reg_loc access .ARCH_TIMER_REG_TVAL) (evt % 2 ^ 32),
       Event.write (reg_loc access .ARCH_TIMER_REG_CTRL)
         ((arch_timer_reg_read access .ARCH_TIMER_REG_CTRL hw ||| ARCH_TIMER_CTRL_ENABLE)
            &&& not64 ARCH_TIMER_CTRL_IT_MASK)] := by
  have hlt := or_enable_and_not_mask_lt (arch_timer_reg_read_lt access .ARCH_TIMER_REG_CTRL hw)
  simp only [set_next_event, arch_timer_reg_write_eq, Hw.store, Nat.mod_eq_of_lt hlt,
    List.append_assoc, List.singleton_append]

theorem shl32_or_eq (a b : Nat) (hb : b < 2 ^ 32) : (a <<< 32) ||| b = 2 ^ 32 * a + b := by
  rw [Nat.shiftLeft_eq, Nat.mul_comm, Nat.mul_add_lt_is_or hb]

theorem shl32_or_lt (a b : Nat) (ha : a < 2 ^ 32) (hb : b < 2 ^ 32) :
    (a <<< 32) ||| b < 2 ^ 64 := by
  rw [shl32_or_eq a b hb]
  have : (2 : Nat) ^ 64 = 2 ^ 32 * 2 ^ 32 := by norm_num
  nlinarith

theorem shl32_or_hi (a b : Nat) (hb : b < 2 ^ 32) : ((a <<< 32) ||| b) >>> 32 = a := by
  rw [shl32_or_eq a b hb, Nat.shiftRight_eq_div_pow]
  rw [Nat.mul_add_div (by norm_num), Nat.div_eq_of_lt hb, Nat.add_zero]

theorem shl32_or_lo (a b : Nat) (hb : b < 2 ^ 32) : ((a <<< 32) ||| b) % 2 ^ 32 = b := by
  rw [shl32_or_eq a b hb, Nat.mul_add_mod, Nat.mod_eq_of_lt hb]

theorem fsl_a008585_loop_all_disagree (rd : Nat → Nat) :
    ∀ r t, (∀ j, j < r → rd (t + 2 * j) % 2 ^ 64 ≠ rd (t + 2 * j + 1) % 2 ^ 64) →
      fsl_a008585_loop rd r t =
        { _old := rd (t + 2 * r) % 2 ^ 64, _new := rd (t + 2 * r + 1) % 2 ^ 64,
          _retries := 0, reads := t + 2 * r + 2 } := by
  intro r
  induction r with
  | zero => intro t _; simp [fsl_a008585_loop]
  | succ r ih =>
    intro t h
    have h0 := h 0 (Nat.succ_pos r)
    simp only [Nat.mul_zero, Nat.add_zero] at h0
    have ih' := ih (t + 2) (fun j hj => by
      have := h (j + 1) (Nat.succ_lt_succ hj)
      have e1 : t + 2 + 2 * j = t + 2 * (j + 1) := by ring
      rw [e1]; exact this)
    rw [fsl_a008585_loop]
    simp only [if_pos h0]
    rw [ih']
    have e2 : t + 2 + 2 * r = t + 2 * (r + 1) := by ring
    rw [e2]

/-! ## Theorems: timer event device -/

/-- C1: for every hardware state (so every initial Control value), access mode
and delta, arming through the default path `set_next_event` and then calling
`timer_shutdown` on the same access mode leaves bit0 (Enable) of the Control
register of that access mode clear, both in the register file and as read back
through the accessor. -/
theorem shutdown_after_arm_clears_enable (access : Access) (evt : Nat) (hw : Hw) :
    (timer_shutdown access (set_next_event access evt hw)).2.reg
        (reg_loc access .ARCH_TIMER_REG_CTRL) &&& ARCH_TIMER_CTRL_ENABLE = 0 ∧
    arch_timer_reg_read access .ARCH_TIMER_REG_CTRL
        (timer_shutdown access (set_next_event access evt hw)).2 &&& ARCH_TIMER_CTRL_ENABLE = 0 := by
  have key : ∀ c : Nat, ((c &&& not64 ARCH_TIMER_CTRL_ENABLE) % 2 ^ 32).testBit 0 = false := by
    intro c
    rw [Nat.testBit_mod_two_pow, Nat.testBit_and, testBit_not64, testBit_ENABLE]
    simp
  have hreg : ∀ h : Hw, (timer_shutdown access h).2.reg (reg_loc access .ARCH_TIMER_REG_CTRL) =
      (arch_timer_reg_read access .ARCH_TIMER_REG_CTRL h &&& not64 ARCH_TIMER_CTRL_ENABLE)
        % 2 ^ 32 := by
    intro h
    simp only [timer_shutdown, arch_timer_reg_write_eq, store_reg_same]
  refine ⟨?_, ?_⟩
  · rw [hreg]
    exact and_one_eq_zero_of_testBit (key _)
  · rw [arch_timer_reg_read_eq, hreg]
    apply and_one_eq_zero_of_testBit
    rw [Nat.mod_mod]
    exact key _

/-- C2: when the Control value read has InterruptStatus (bit2) set, `timer_handler`
returns IRQ_HANDLED and the callback runs once, on the state in which Control
has been written exactly once with (read value OR InterruptMask): the trace
handed to the callback is the old trace followed by that single write and then
the callback invocation.  The written value has bit1 set and every other bit,
Enable included, as read. -/
theorem timer_handler_acks_then_calls_back (access : Access) (event_handler : Hw → Hw)
    (hw : Hw)
    (hstat : arch_timer_reg_read access .ARCH_TIMER_REG_CTRL hw &&& ARCH_TIMER_CTRL_IT_STAT ≠ 0) :
    timer_handler access event_handler hw =
      (irqreturn_t.IRQ_HANDLED, event_handler
        { reg := Function.update hw.reg (reg_loc access .ARCH_TIMER_REG_CTRL)
            (arch_timer_reg_read access .ARCH_TIMER_REG_CTRL hw ||| ARCH_TIMER_CTRL_IT_MASK),
          cntvct := hw.cntvct,
          trace := hw.trace ++
            [Event.write (reg_loc access .ARCH_TIMER_REG_CTRL)
               (arch_timer_reg_read access .ARCH_TIMER_REG_CTRL hw ||| ARCH_TIMER_CTRL_IT_MASK),
             Event.event_handler] }) ∧
    (arch_timer_reg_read access .ARCH_TIMER_REG_CTRL hw ||| ARCH_TIMER_CTRL_IT_MASK).testBit 1
      = true ∧
    ∀ i, i ≠ 1 →
      (arch_timer_reg_read access .ARCH_TIMER_REG_CTRL hw ||| ARCH_TIMER_CTRL_IT_MASK).testBit i
        = (arch_timer_reg_read access .ARCH_TIMER_REG_CTRL hw).testBit i := by
  refine ⟨?_, ?_, ?_⟩
  · have hlt := or_mask_lt (arch_timer_reg_read_lt access .ARCH_TIMER_REG_CTRL hw)
    simp only [timer_handler, if_pos hstat, arch_timer_reg_write_eq, Hw.store,
      Nat.mod_eq_of_lt hlt, List.append_assoc, List.singleton_append]
  · rw [Nat.testBit_or, testBit_IT_MASK]; simp
  · intro i hi
    rw [Nat.testBit_or, testBit_IT_MASK]; simp [hi]

/-- C2 instantiated: Control reads 5 (Enable and InterruptStatus) on the
privileged virtual timer. -/
theorem timer_handler_acks_then_calls_back_witness :
    arch_timer_reg_read .ARCH_TIMER_VIRT_ACCESS .ARCH_TIMER_REG_CTRL (hw_const 5)
        &&& ARCH_TIMER_CTRL_IT_STAT ≠ 0 ∧
    (timer_handler .ARCH_TIMER_VIRT_ACCESS id (hw_const 5)).1 = irqreturn_t.IRQ_HANDLED ∧
    (timer_handler .ARCH_TIMER_VIRT_ACCESS id (hw_const 5)).2.trace =
      [Event.write Loc.cntv_ctl_el0 7, Event.event_handler] :=
  have h : arch_timer_reg_read .ARCH_TIMER_VIRT_ACCESS .ARCH_TIMER_REG_CTRL (hw_const 5)
        &&& ARCH_TIMER_CTRL_IT_STAT ≠ 0 := by decide
  ⟨h, by rw [(timer_handler_acks_then_calls_back .ARCH_TIMER_VIRT_ACCESS id (hw_const 5) h).1],
    by rw [(timer_handler_acks_then_calls_back .ARCH_TIMER_VIRT_ACCESS id (hw_const 5) h).1]; rfl⟩

/-- C3: when the Control value read has InterruptStatus (bit2) clear,
`timer_handler` returns IRQ_NONE and the hardware state is the one it was given:
no register is written and the callback is not invoked. -/
theorem timer_handler_spurious (access : Access) (event_handler : Hw → Hw) (hw : Hw)
    (hstat : arch_timer_reg_read access .ARCH_TIMER_REG_CTRL hw &&& ARCH_TIMER_CTRL_IT_STAT = 0) :
    timer_handler access event_handler hw = (irqreturn_t.IRQ_NONE, hw) := by
  simp [timer_handler, hstat]

/-- C3 instantiated: Control reads 1 (Enable only) on the memory-mapped physical
timer, with a callback that would write Control if it were called. -/
theorem timer_handler_spurious_witness :
    arch_timer_reg_read .ARCH_TIMER_MEM_PHYS_ACCESS .ARCH_TIMER_REG_CTRL (hw_const 1)
        &&& ARCH_TIMER_CTRL_IT_STAT = 0 ∧
    timer_handler .ARCH_TIMER_MEM_PHYS_ACCESS
        (fun h => (timer_shutdown .ARCH_TIMER_MEM_PHYS_ACCESS h).2) (hw_const 1)
      = (irqreturn_t.IRQ_NONE, hw_const 1) :=
  ⟨by decide, timer_handler_spurious _ _ _ (by decide)⟩

/-- C10: on the default arm path, for every access mode, hardware state and
delta, `set_next_event` performs exactly two writes, in this order: the delta
truncated to 32 bits to the TimerValue register of the access mode, then
(C OR Enable) AND NOT InterruptMask to its Control register, where C is the
Control value read on entry.  The value written to Control has bit0 set, bit1
clear, and every other bit as read. -/
theorem set_next_event_default_path (access : Access) (evt : Nat) (hw : Hw) :
    (set_next_event access evt hw).trace = hw.trace ++
      [Event.write (reg_loc access .ARCH_TIMER_REG_TVAL) (evt % 2 ^ 32),
       Event.write (reg_loc access .ARCH_TIMER_REG_CTRL)
         ((arch_timer_reg_read access .ARCH_TIMER_REG_CTRL hw ||| ARCH_TIMER_CTRL_ENABLE)
            &&& not64 ARCH_TIMER_CTRL_IT_MASK)] ∧
    (set_next_event access evt hw).reg =
      Function.update
        (Function.update hw.reg (reg_loc access .ARCH_TIMER_REG_TVAL) (evt % 2 ^ 32))
        (reg_loc access .ARCH_TIMER_REG_CTRL)
        ((arch_timer_reg_read access .ARCH_TIMER_REG_CTRL hw ||| ARCH_TIMER_CTRL_ENABLE)
            &&& not64 ARCH_TIMER_CTRL_IT_MASK) ∧
    ((arch_timer_reg_read access .ARCH_TIMER_REG_CTRL hw ||| ARCH_TIMER_CTRL_ENABLE)
        &&& not64 ARCH_TIMER_CTRL_IT_MASK).testBit 0 = true ∧
    ((arch_timer_reg_read access .ARCH_TIMER_REG_CTRL hw ||| ARCH_TIMER_CTRL_ENABLE)
        &&& not64 ARCH_TIMER_CTRL_IT_MASK).testBit 1 = false ∧
    ∀ i, i ≠ 0 → i ≠ 1 →
      ((arch_timer_reg_read access .ARCH_TIMER_REG_CTRL hw ||| ARCH_TIMER_CTRL_ENABLE)
          &&& not64 ARCH_TIMER_CTRL_IT_MASK).testBit i
        = (arch_timer_reg_read access .ARCH_TIMER_REG_CTRL hw).testBit i := by
  have hlt := or_enable_and_not_mask_lt (arch_timer_reg_read_lt access .ARCH_TIMER_REG_CTRL hw)
  refine ⟨?_, ?_, ?_, ?_, ?_⟩
  · simp only [set_next_event, arch_timer_reg_write_eq, Hw.store, Nat.mod_eq_of_lt hlt,
      List.append_assoc, List.singleton_append]
  · simp only [set_next_event, arch_timer_reg_write_eq, Hw.store, Nat.mod_eq_of_lt hlt]
  · rw [Nat.testBit_and, Nat.testBit_or, testBit_not64, testBit_ENABLE, testBit_IT_MASK]; simp
  · rw [Nat.testBit_and, Nat.testBit_or, testBit_not64, testBit_ENABLE, testBit_IT_MASK]; simp
  · intro i h0 h1
    rw [Nat.testBit_and, Nat.testBit_or, testBit_not64, testBit_ENABLE, testBit_IT_MASK]
    by_cases h64 : i < 64
    · simp [h0, h1, h64]
    · have hfalse : (arch_timer_reg_read access .ARCH_TIMER_REG_CTRL hw).testBit i = false := by
        apply Nat.testBit_lt_two_pow
        calc arch_timer_reg_read access .ARCH_TIMER_REG_CTRL hw < 2 ^ 32 :=
              arch_timer_reg_read_lt _ _ _
          _ ≤ 2 ^ i := Nat.pow_le_pow_right (by norm_num) (by omega)
      simp [h0, hfalse]

/-! ## Theorems: arm-deadline override -/

/-- C4, as stated, fails: with the flag enabled and a descriptor supplying a
virtual arm override active on core 0, arming 1000 on the memory-mapped virtual
timer writes 1000 to the TimerValue word of the frame and then Control, and the
override is not called; the privileged virtual operation in the same registry
does call it and writes nothing. -/
theorem virt_mem_arm_override_counterexample :
    registry_double.arch_timer_read_ool_enabled = true ∧
    ((registry_double.timer_unstable_counter_workaround 0).bind
        (fun wa => wa.set_next_event_virt)).isSome = true ∧
    (arch_timer_set_next_event_virt_mem 1000 (hw_const 0)).2.trace =
      [Event.write (Loc.mem CNTV_TVAL) 1000, Event.write (Loc.mem CNTV_CTL) 1] ∧
    (arch_timer_set_next_event_virt registry_double 0 1000 (hw_const 0)).2.trace =
      [Event.override_call 1 1000] := by
  refine ⟨rfl, rfl, ?_, rfl⟩
  decide

/-- C4 amended: with the flag enabled and the running core's active workaround
supplying `set_next_event_virt`, the privileged virtual arm operation
`arch_timer_set_next_event_virt` returns what the override returns, called once
with the delta, and performs nothing else.  The memory-mapped virtual operation
`arch_timer_set_next_event_virt_mem` does not consult the registry: it returns 0
after the two writes of the default path, TimerValue then Control of the frame. -/
theorem arm_override_privileged_virt_only (r : Registry) (cpu evt : Nat) (hw : Hw)
    (wa : arch_timer_erratum_workaround) (f : set_next_event_fn)
    (hflag : r.arch_timer_read_ool_enabled = true)
    (hwa : r.timer_unstable_counter_workaround cpu = some wa)
    (hf : wa.set_next_event_virt = some f) :
    arch_timer_set_next_event_virt r cpu evt hw = f evt hw ∧
    (arch_timer_set_next_event_virt_mem evt hw).1 = 0 ∧
    (arch_timer_set_next_event_virt_mem evt hw).2.trace = hw.trace ++
      [Event.write (Loc.mem CNTV_TVAL) (evt % 2 ^ 32),
       Event.write (Loc.mem CNTV_CTL)
         ((arch_timer_reg_read .ARCH_TIMER_MEM_VIRT_ACCESS .ARCH_TIMER_REG_CTRL hw
             ||| ARCH_TIMER_CTRL_ENABLE) &&& not64 ARCH_TIMER_CTRL_IT_MASK)] := by
  refine ⟨?_, rfl, ?_⟩
  · simp [arch_timer_set_next_event_virt, erratum_handler,
      needs_unstable_timer_counter_workaround, hflag, hwa, hf]
  · exact set_next_event_trace .ARCH_TIMER_MEM_VIRT_ACCESS evt hw

/-- C4 amended, instantiated at the recording override and a deadline of 1000. -/
theorem arm_override_privileged_virt_only_witness :
    arch_timer_set_next_event_virt registry_double 0 1000 (hw_const 0)
      = double_set_next_event_virt 1000 (hw_const 0) :=
  (arm_override_privileged_virt_only registry_double 0 1000 (hw_const 0) wa_double
    double_set_next_event_virt rfl rfl rfl).1

/-! ## Theorems: counter reader -/

/-- C5: if the first read of the high half returns H, the following read of the
low half returns L and the next read of the high half returns H again (H and L
32-bit values), `arch_counter_get_cntvct_mem` returns (H << 32) | L after exactly
three reads: one pass of the loop body, whatever bound of at least one pass the
model is given. -/
theorem cntvct_mem_single_pass (rd : Nat → Nat → Nat) (H L fuel : Nat)
    (hH : H < 2 ^ 32) (hL : L < 2 ^ 32)
    (h0 : rd 0 CNTVCT_HI = H) (h1 : rd 1 CNTVCT_LO = L) (h2 : rd 2 CNTVCT_HI = H) :
    arch_counter_get_cntvct_mem rd (fuel + 1) 0 = some ((H <<< 32) ||| L, 3) := by
  simp only [arch_counter_get_cntvct_mem, Nat.zero_add, h0, h1, h2, Nat.mod_eq_of_lt hH,
    Nat.mod_eq_of_lt hL, Nat.mod_eq_of_lt (shl32_or_lt H L hH hL), ne_eq, not_true_eq_false,
    if_false]

/-- C5 instantiated: the high half reads 7 twice, the low half 9. -/
theorem cntvct_mem_single_pass_witness :
    arch_counter_get_cntvct_mem rd_stable 1 0 = some ((7 <<< 32) ||| 9, 3) :=
  cntvct_mem_single_pass rd_stable 7 9 0 (by norm_num) (by norm_num) rfl rfl rfl

/-- C6, as stated, fails.  On `rd_moving` the first three high-half probes return
0, 1, 1, yet the loop makes six high-half probes and returns upper bits 2, not
1.  On `rd_settled` the high half keeps reading 1: the loop makes four high-half
probes (accesses 0, 2, 3, 5) and the low half it returns is the one read at
access 4, after the third high-half probe; no read is made between the second
and the third high-half probe. -/
theorem cntvct_mem_three_probes_counterexample :
    rd_moving 0 CNTVCT_HI = 0 ∧ rd_moving 2 CNTVCT_HI = 0 + 1 ∧ rd_moving 3 CNTVCT_HI = 0 + 1 ∧
    arch_counter_get_cntvct_mem rd_moving 3 0 = some ((2 <<< 32) ||| 107, 9) ∧
    ((2 <<< 32) ||| 107) >>> 32 ≠ 0 + 1 ∧
    rd_settled 0 CNTVCT_HI = 0 ∧ rd_settled 2 CNTVCT_HI = 0 + 1 ∧
    rd_settled 3 CNTVCT_HI = 0 + 1 ∧
    arch_counter_get_cntvct_mem rd_settled 2 0 = some ((1 <<< 32) ||| 104, 6) ∧
    rd_settled 4 CNTVCT_LO = 104 ∧ rd_settled 1 CNTVCT_LO ≠ 104 := by
  decide

/-- C6 amended: when the four high-half probes the loop makes return H, H+1,
H+1, H+1 (accesses 0, 2, 3 and 5), `arch_counter_get_cntvct_mem` returns after
two passes (six reads) a value whose upper 32 bits are H+1, the value of the
third and fourth probes, and whose lower 32 bits are the low half read at
access 4, between the third and the fourth high-half probe. -/
theorem cntvct_mem_second_pass (rd : Nat → Nat → Nat) (H fuel : Nat)
    (hH : H + 1 < 2 ^ 32)
    (h0 : rd 0 CNTVCT_HI = H) (h2 : rd 2 CNTVCT_HI = H + 1)
    (h3 : rd 3 CNTVCT_HI = H + 1) (h5 : rd 5 CNTVCT_HI = H + 1) :
    arch_counter_get_cntvct_mem rd (fuel + 2) 0 =
      some (((H + 1) <<< 32) ||| (rd 4 CNTVCT_LO % 2 ^ 32), 6) ∧
    (((H + 1) <<< 32) ||| (rd 4 CNTVCT_LO % 2 ^ 32)) >>> 32 = H + 1 ∧
    (((H + 1) <<< 32) ||| (rd 4 CNTVCT_LO % 2 ^ 32)) % 2 ^ 32 = rd 4 CNTVCT_LO % 2 ^ 32 := by
  have hlo : rd 4 CNTVCT_LO % 2 ^ 32 < 2 ^ 32 := Nat.mod_lt _ (by norm_num)
  have hH' : H < 2 ^ 32 := by omega
  have hne : H ≠ H + 1 := by omega
  refine ⟨?_, shl32_or_hi _ _ hlo, shl32_or_lo _ _ hlo⟩
  simp only [arch_counter_get_cntvct_mem, Nat.zero_add, h0, h2, h3, h5, Nat.mod_eq_of_lt hH,
    Nat.mod_eq_of_lt hH', Nat.mod_eq_of_lt (shl32_or_lt _ _ hH hlo), ne_eq, hne,
    not_false_eq_true, if_true, not_true_eq_false, if_false]

/-- C6 amended, instantiated on `rd_settled` with H = 0. -/
theorem cntvct_mem_second_pass_witness :
    arch_counter_get_cntvct_mem rd_settled 2 0 =
      some (((0 + 1) <<< 32) ||| (rd_settled 4 CNTVCT_LO % 2 ^ 32), 6) :=
  (cntvct_mem_second_pass rd_settled 0 0 (by norm_num) rfl rfl rfl rfl).1

/-- C7: when the two reads of every one of the 200 attempts disagree, the
retry-pattern read makes exactly 400 reads (200 attempts), returns the value of
the last read (read 399, the second read of attempt 200), leaves `_retries` at
0 so that the condition of WARN_ON_ONCE holds, and the warning is emitted
unless its site has emitted it before; afterwards the site is marked warned. -/
theorem fsl_read_reg_exhausts_retries (rd : Nat → Nat) (warned : Bool)
    (hdis : ∀ k, k < 200 → rd (2 * k) % 2 ^ 64 ≠ rd (2 * k + 1) % 2 ^ 64) :
    (__fsl_a008585_read_reg rd warned).reads = 400 ∧
    (__fsl_a008585_read_reg rd warned).val = rd 399 % 2 ^ 64 ∧
    (fsl_a008585_loop rd 199 0)._retries = 0 ∧
    (__fsl_a008585_read_reg rd warned).emitted = !warned ∧
    (__fsl_a008585_read_reg rd warned).warned = true := by
  have h := fsl_a008585_loop_all_disagree rd 199 0 (fun j hj => by
    have := hdis j (by omega)
    simpa using this)
  simp [__fsl_a008585_read_reg, WARN_ON_ONCE, h]

/-- C7 instantiated on a register that alternates 0, 1, 0, 1, ...: the first
call warns and returns 1, the value of read 399. -/
theorem fsl_read_reg_exhausts_retries_witness :
    (__fsl_a008585_read_reg rd_alternating false).reads = 400 ∧
    (__fsl_a008585_read_reg rd_alternating false).val = rd_alternating 399 % 2 ^ 64 ∧
    (fsl_a008585_loop rd_alternating 199 0)._retries = 0 ∧
    (__fsl_a008585_read_reg rd_alternating false).emitted = !false ∧
    (__fsl_a008585_read_reg rd_alternating false).warned = true :=
  fsl_read_reg_exhausts_retries rd_alternating false (fun k _ => by
    simp only [rd_alternating]
    omega)

/-! ## Theorems: erratum registry -/

/-- C8: on any core, if the erratum flag is enabled and the core's slot already
holds a workaround W1, `arch_timer_check_ool_workaround(ate_match_local_cap_id)`
returns the registry unchanged, whichever catalog entry matches: the core's slot
still holds W1, and every other slot, the flag and both VDSO flags are as
before. -/
theorem check_local_cap_keeps_active_workaround (env : Env) (arg : match_arg) (cpu : Nat)
    (r : Registry) (W1 : arch_timer_erratum_workaround)
    (hflag : r.arch_timer_read_ool_enabled = true)
    (hW1 : r.timer_unstable_counter_workaround cpu = some W1) :
    arch_timer_check_ool_workaround env .ate_match_local_cap_id arg cpu r = r ∧
    (arch_timer_check_ool_workaround env .ate_match_local_cap_id arg cpu
        r).timer_unstable_counter_workaround cpu = some W1 := by
  have h : arch_timer_check_ool_workaround env .ate_match_local_cap_id arg cpu r = r := by
    unfold arch_timer_check_ool_workaround
    simp only [needs_unstable_timer_counter_workaround, hflag, hW1, Option.isSome_some,
      and_self, if_true]
    split <;> rfl
  exact ⟨h, by rw [h]; exact hW1⟩

/-- C8 instantiated: core 0 runs the 1188873 workaround and has the capability
of erratum 858921, so the catalog search returns the 858921 entry; the registry
is left as it was. -/
theorem check_local_cap_keeps_active_workaround_witness :
    registry_busy.arch_timer_read_ool_enabled = true ∧
    registry_busy.timer_unstable_counter_workaround 0 = some wa_1188873 ∧
    (arch_timer_iterate_errata env_sample .ate_match_local_cap_id
        (arch_timer_check_local_cap_erratum env_sample 0) .null).map (fun wa => wa.desc)
      = some "ARM erratum 858921" ∧
    arch_timer_check_ool_workaround env_sample .ate_match_local_cap_id .null 0 registry_busy
      = registry_busy :=
  ⟨rfl, rfl, rfl,
    (check_local_cap_keeps_active_workaround env_sample .null 0 registry_busy wa_1188873
      rfl rfl).1⟩

/-! ## Theorems: frequency discovery -/

/-- C9: once `arch_timer_rate` is non-zero, `arch_timer_of_configure_rate` leaves
it unchanged for every rate argument and every device node; hence if a first
call made from the undiscovered rate 0 stored the non-zero value `cur`, a second
call with any other rate and node leaves `cur` in effect. -/
theorem arch_timer_rate_first_wins (rate1 rate2 : Nat) (np1 np2 : device_node) (cur : Nat)
    (hcur : cur ≠ 0) :
    arch_timer_of_configure_rate rate2 np2 cur = cur ∧
    (arch_timer_of_configure_rate rate1 np1 0 = cur →
      arch_timer_of_configure_rate rate2 np2 (arch_timer_of_configure_rate rate1 np1 0)
        = cur) := by
  have h : arch_timer_of_configure_rate rate2 np2 cur = cur := by
    simp [arch_timer_of_configure_rate, hcur]
  exact ⟨h, fun e => by rw [e]; exact h⟩

/-- C9 instantiated: a first call with 19200000 and a second with 24000000, on a
node without a clock-frequency property, leave 19200000. -/
theorem arch_timer_rate_first_wins_witness :
    (19200000 : Nat) ≠ 0 ∧
    arch_timer_of_configure_rate 19200000 np_empty 0 = 19200000 ∧
    arch_timer_of_configure_rate 24000000 np_empty
      (arch_timer_of_configure_rate 19200000 np_empty 0) = 19200000 :=
  ⟨by decide, by decide,
    (arch_timer_rate_first_wins 19200000 24000000 np_empty np_empty 19200000 (by decide)).2
      (by decide)⟩

/-! ## Lemmas: second part -/

theorem ctrl_arm_value_bits (c : Nat) (hc : c < 2 ^ 32) :
    ((c ||| ARCH_TIMER_CTRL_ENABLE) &&& not64 ARCH_TIMER_CTRL_IT_MASK).testBit 0 = true ∧
    ((c ||| ARCH_TIMER_CTRL_ENABLE) &&& not64 ARCH_TIMER_CTRL_IT_MASK).testBit 1 = false ∧
    ∀ i, i ≠ 0 → i ≠ 1 →
      ((c ||| ARCH_TIMER_CTRL_ENABLE) &&& not64 ARCH_TIMER_CTRL_IT_MASK).testBit i
        = c.testBit i := by
  refine ⟨?_, ?_, ?_⟩
  · rw [Nat.testBit_and, Nat.testBit_or, testBit_not64, testBit_ENABLE, testBit_IT_MASK]; simp
  · rw [Nat.testBit_and, Nat.testBit_or, testBit_not64, testBit_ENABLE, testBit_IT_MASK]; simp
  · intro i h0 h1
    rw [Nat.testBit_and, Nat.testBit_or, testBit_not64, testBit_ENABLE, testBit_IT_MASK]
    by_cases h64 : i < 64
    · simp [h0, h1, h64]
    · have hfalse : c.testBit i = false := by
        apply Nat.testBit_lt_two_pow
        calc c < 2 ^ 32 := hc
          _ ≤ 2 ^ i := Nat.pow_le_pow_right (by norm_num) (by omega)
      simp [h0, hfalse]

theorem iterate_loop_some (type : arch_timer_erratum_match_type)
    (f : arch_timer_erratum_workaround → match_arg → Bool) (arg : match_arg) :
    ∀ (l : List arch_timer_erratum_workaround) (w : arch_timer_erratum_workaround),
      arch_timer_iterate_errata_loop type f arg l = some w →
      ∃ i : Nat, l[i]? = some w ∧ w.match_type = type ∧ f w arg = true ∧
        ∀ j : Nat, j < i → ∀ w', l[j]? = some w' → ¬ (w'.match_type = type ∧ f w' arg = true) := by
  intro l
  induction l with
  | nil => intro w h; simp [arch_timer_iterate_errata_loop] at h
  | cons a rest ih =>
    intro w h
    rw [arch_timer_iterate_errata_loop] at h
    by_cases ht : a.match_type = type
    · by_cases hf : f a arg = true
      · simp only [ht, ne_eq, not_true_eq_false, if_false, hf, if_true, Option.some.injEq] at h
        subst h
        exact ⟨0, by simp, ht, hf, fun j hj => absurd hj (Nat.not_lt_zero j)⟩
      · simp only [ht, ne_eq, not_true_eq_false, if_false, hf] at h
        obtain ⟨i, hi, h1, h2, h3⟩ := ih w h
        refine ⟨i + 1, by simpa using hi, h1, h2, ?_⟩
        intro j hj w' hw'
        cases j with
        | zero =>
          simp only [List.getElem?_cons_zero, Option.some.injEq] at hw'
          subst hw'
          exact fun hc => hf hc.2
        | succ j => exact h3 j (by omega) w' (by simpa using hw')
    · simp only [ne_eq, ht, not_false_eq_true, if_true] at h
      obtain ⟨i, hi, h1, h2, h3⟩ := ih w h
      refine ⟨i + 1, by simpa using hi, h1, h2, ?_⟩
      intro j hj w' hw'
      cases j with
      | zero =>
        simp only [List.getElem?_cons_zero, Option.some.injEq] at hw'
        subst hw'
        exact fun hc => ht hc.1
      | succ j => exact h3 j (by omega) w' (by simpa using hw')

theorem iterate_loop_none (type : arch_timer_erratum_match_type)
    (f : arch_timer_erratum_workaround → match_arg → Bool) (arg : match_arg) :
    ∀ (l : List arch_timer_erratum_workaround),
      arch_timer_iterate_errata_loop type f arg l = none ↔
        ∀ w, w ∈ l → ¬ (w.match_type = type ∧ f w arg = true) := by
  intro l
  induction l with
  | nil => simp [arch_timer_iterate_errata_loop]
  | cons a rest ih =>
    rw [arch_timer_iterate_errata_loop]
    by_cases ht : a.match_type = type
    · by_cases hf : f a arg = true
      · simp [ht, hf]
      · simp [ht, hf, ih]
    · simp [ht, ih]

theorem iterate_calls_spec (type : arch_timer_erratum_match_type)
    (f : arch_timer_erratum_workaround → match_arg → Bool) (arg : match_arg) :
    ∀ (l : List arch_timer_erratum_workaround),
      (arch_timer_iterate_errata_calls type f arg l).1
          = arch_timer_iterate_errata_loop type f arg l ∧
      ∀ w, w ∈ (arch_timer_iterate_errata_calls type f arg l).2 →
        w ∈ l ∧ w.match_type = type := by
  intro l
  induction l with
  | nil => simp [arch_timer_iterate_errata_calls, arch_timer_iterate_errata_loop]
  | cons a rest ih =>
    rw [arch_timer_iterate_errata_calls, arch_timer_iterate_errata_loop]
    by_cases ht : a.match_type = type
    · by_cases hf : f a arg = true
      · simp [ht, hf]
      · simp only [ht, ne_eq, not_true_eq_false, if_false, hf]
        refine ⟨ih.1, ?_⟩
        intro w hw
        rcases List.mem_cons.mp hw with h | h
        · subst h; exact ⟨List.mem_cons_self _ _, ht⟩
        · exact ⟨List.mem_cons_of_mem _ (ih.2 w h).1, (ih.2 w h).2⟩
    · simp only [ne_eq, ht, not_false_eq_true, if_true]
      exact ⟨ih.1, fun w hw => ⟨List.mem_cons_of_mem _ (ih.2 w hw).1, (ih.2 w hw).2⟩⟩

/-! ## Theorems: erratum arm path and catalog search -/

/-- C11: on the erratum arm path, for every access value, delta and hardware
state, `erratum_set_next_event_tval_generic` performs exactly two writes, in
this order: (delta + counter) mod 2^64 to the physical comparator when the
access is ARCH_TIMER_PHYS_ACCESS and to the virtual comparator otherwise, then
(C OR Enable) AND NOT InterruptMask to Control, C being the Control value read;
that value has bit0 set, bit1 clear and the other bits as read.  Neither write
addresses a TimerValue register, and both wrappers return 0 after running the
generic function for their timeline. -/
theorem erratum_set_next_event_writes_comparator (access : Access) (evt : Nat) (hw : Hw) :
    (erratum_set_next_event_tval_generic access evt hw).trace = hw.trace ++
      [Event.write
         (if access = .ARCH_TIMER_PHYS_ACCESS then Loc.cntp_cval_el0 else Loc.cntv_cval_el0)
         ((evt + arch_counter_get_cntvct hw) % 2 ^ 64),
       Event.write (reg_loc access .ARCH_TIMER_REG_CTRL)
         ((arch_timer_reg_read access .ARCH_TIMER_REG_CTRL hw ||| ARCH_TIMER_CTRL_ENABLE)
            &&& not64 ARCH_TIMER_CTRL_IT_MASK)] ∧
    ((arch_timer_reg_read access .ARCH_TIMER_REG_CTRL hw ||| ARCH_TIMER_CTRL_ENABLE)
        &&& not64 ARCH_TIMER_CTRL_IT_MASK).testBit 0 = true ∧
    ((arch_timer_reg_read access .ARCH_TIMER_REG_CTRL hw ||| ARCH_TIMER_CTRL_ENABLE)
        &&& not64 ARCH_TIMER_CTRL_IT_MASK).testBit 1 = false ∧
    (∀ i, i ≠ 0 → i ≠ 1 →
      ((arch_timer_reg_read access .ARCH_TIMER_REG_CTRL hw ||| ARCH_TIMER_CTRL_ENABLE)
          &&& not64 ARCH_TIMER_CTRL_IT_MASK).testBit i
        = (arch_timer_reg_read access .ARCH_TIMER_REG_CTRL hw).testBit i) ∧
    (∀ e, e ∈ (erratum_set_next_event_tval_generic access evt hw).trace.drop hw.trace.length →
      ∀ a v, e ≠ Event.write (reg_loc a .ARCH_TIMER_REG_TVAL) v) ∧
    erratum_set_next_event_tval_phys evt hw =
      (0, erratum_set_next_event_tval_generic .ARCH_TIMER_PHYS_ACCESS evt hw) ∧
    erratum_set_next_event_tval_virt evt hw =
      (0, erratum_set_next_event_tval_generic .ARCH_TIMER_VIRT_ACCESS evt hw) := by
  have hlt := or_enable_and_not_mask_lt (arch_timer_reg_read_lt access .ARCH_TIMER_REG_CTRL hw)
  have hbits := ctrl_arm_value_bits _ (arch_timer_reg_read_lt access .ARCH_TIMER_REG_CTRL hw)
  have htrace : (erratum_set_next_event_tval_generic access evt hw).trace = hw.trace ++
      [Event.write
         (if access = .ARCH_TIMER_PHYS_ACCESS then Loc.cntp_cval_el0 else Loc.cntv_cval_el0)
         ((evt + arch_counter_get_cntvct hw) % 2 ^ 64),
       Event.write (reg_loc access .ARCH_TIMER_REG_CTRL)
         ((arch_timer_reg_read access .ARCH_TIMER_REG_CTRL hw ||| ARCH_TIMER_CTRL_ENABLE)
            &&& not64 ARCH_TIMER_CTRL_IT_MASK)] := by
    by_cases hp : access = .ARCH_TIMER_PHYS_ACCESS
    · simp only [erratum_set_next_event_tval_generic, hp, if_true, arch_timer_reg_write_eq,
        Hw.store, Nat.mod_eq_of_lt (hp ▸ hlt), List.append_assoc, List.singleton_append,
        Nat.mod_add_mod]
    · simp only [erratum_set_next_event_tval_generic, hp, if_false, arch_timer_reg_write_eq,
        Hw.store, Nat.mod_eq_of_lt hlt, List.append_assoc, List.singleton_append,
        Nat.mod_add_mod]
  refine ⟨htrace, hbits.1, hbits.2.1, hbits.2.2, ?_, rfl, rfl⟩
  intro e he a v
  rw [htrace, List.drop_left] at he
  rcases List.mem_cons.mp he with h | h
  · subst h
    cases a <;> by_cases hp : access = .ARCH_TIMER_PHYS_ACCESS <;> simp [hp, reg_loc]
  · rw [List.mem_singleton] at h
    subst h
    cases a <;> cases access <;> simp [reg_loc, CNTP_CTL, CNTP_TVAL, CNTV_CTL, CNTV_TVAL]

/-- C12: for every match kind, predicate and argument, the entry
`arch_timer_iterate_errata` returns is at some index of the catalog, has the
queried kind and satisfies the predicate, and no entry at a smaller index has
both; it returns NULL exactly when no catalog entry has both; and every entry on
which the loop calls the predicate is a catalog entry of the queried kind. -/
theorem iterate_errata_first_match (env : Env) (type : arch_timer_erratum_match_type)
    (match_fn : arch_timer_erratum_workaround → match_arg → Bool) (arg : match_arg) :
    (∀ w, arch_timer_iterate_errata env type match_fn arg = some w →
      ∃ i : Nat, (ool_workarounds env)[i]? = some w ∧ w.match_type = type ∧ match_fn w arg = true ∧
        ∀ j : Nat, j < i → ∀ w', (ool_workarounds env)[j]? = some w' →
          ¬ (w'.match_type = type ∧ match_fn w' arg = true)) ∧
    (arch_timer_iterate_errata env type match_fn arg = none ↔
      ∀ w, w ∈ ool_workarounds env → ¬ (w.match_type = type ∧ match_fn w arg = true)) ∧
    (arch_timer_iterate_errata_calls type match_fn arg (ool_workarounds env)).1
      = arch_timer_iterate_errata env type match_fn arg ∧
    (∀ w, w ∈ (arch_timer_iterate_errata_calls type match_fn arg (ool_workarounds env)).2 →
      w ∈ ool_workarounds env ∧ w.match_type = type) :=
  ⟨iterate_loop_some type match_fn arg (ool_workarounds env),
   iterate_loop_none type match_fn arg (ool_workarounds env),
   (iterate_calls_spec type match_fn arg (ool_workarounds env)).1,
   (iterate_calls_spec type match_fn arg (ool_workarounds env)).2⟩

/-- C12 instantiated on the full catalog: for the local-capability kind on a core
with the capability of erratum 858921 only, the search returns the 858921
entry, at index 3, after calling the predicate on the two entries of that kind. -/
theorem iterate_errata_first_match_witness :
    (arch_timer_iterate_errata env_sample .ate_match_local_cap_id
        (arch_timer_check_local_cap_erratum env_sample 0) .null).map (fun w => w.desc)
      = some "ARM erratum 858921" ∧
    ((ool_workarounds env_sample)[3]?).map (fun w => w.desc) = some "ARM erratum 858921" ∧
    ((arch_timer_iterate_errata_calls .ate_match_local_cap_id
        (arch_timer_check_local_cap_erratum env_sample 0) .null
        (ool_workarounds env_sample)).2).map (fun w => w.desc)
      = ["ARM erratum 1188873", "ARM erratum 858921"] ∧
    (∀ w, w ∈ (arch_timer_iterate_errata_calls .ate_match_local_cap_id
        (arch_timer_check_local_cap_erratum env_sample 0) .null
        (ool_workarounds env_sample)).2 →
      w ∈ ool_workarounds env_sample ∧ w.match_type = .ate_match_local_cap_id) :=
  ⟨rfl, rfl, rfl,
   (iterate_errata_first_match env_sample .ate_match_local_cap_id
      (arch_timer_check_local_cap_erratum env_sample 0) .null).2.2.2⟩

/-! ## Lemmas: registry operations -/

theorem enable_workaround_flag (env : Env) (wa : arch_timer_erratum_workaround)
    (local_ : Bool) (cpu : Nat) (r : Registry) :
    (arch_timer_enable_workaround env wa local_ cpu r).arch_timer_read_ool_enabled = true := by
  cases local_ <;> cases h : wa.read_cntvct_el0.isSome <;>
    simp [arch_timer_enable_workaround, h]

theorem enable_workaround_slots (env : Env) (wa : arch_timer_erratum_workaround)
    (local_ : Bool) (cpu : Nat) (r : Registry) :
    (arch_timer_enable_workaround env wa local_ cpu r).timer_unstable_counter_workaround =
      if local_ then Function.update r.timer_unstable_counter_workaround cpu (some wa)
      else fun i => if env.cpu_possible i then some wa
        else r.timer_unstable_counter_workaround i := by
  cases local_ <;> cases h : wa.read_cntvct_el0.isSome <;>
    simp [arch_timer_enable_workaround, h]

theorem enable_workaround_vdso (env : Env) (wa : arch_timer_erratum_workaround)
    (local_ : Bool) (cpu : Nat) (r : Registry) :
    (arch_timer_enable_workaround env wa local_ cpu r).vdso_direct
      = (if wa.read_cntvct_el0.isSome then false else r.vdso_direct) ∧
    (arch_timer_enable_workaround env wa local_ cpu r).vdso_default
      = (if wa.read_cntvct_el0.isSome then false else r.vdso_default) := by
  cases local_ <;> cases h : wa.read_cntvct_el0.isSome <;>
    simp [arch_timer_enable_workaround, h]

/-- Either a check leaves the registry as it is, or it enables some descriptor
with the scope of its match kind; the second only when the flag is off or the
slot of the running core is empty. -/
theorem check_ool_workaround_cases (env : Env) (type : arch_timer_erratum_match_type)
    (arg : match_arg) (cpu : Nat) (r : Registry) :
    arch_timer_check_ool_workaround env type arg cpu r = r ∨
    ∃ wa, ¬ (r.arch_timer_read_ool_enabled = true ∧
        (r.timer_unstable_counter_workaround cpu).isSome = true) ∧
      arch_timer_check_ool_workaround env type arg cpu r =
        arch_timer_enable_workaround env wa
          (decide (type = .ate_match_local_cap_id)) cpu r := by
  unfold arch_timer_check_ool_workaround
  simp only [needs_unstable_timer_counter_workaround]
  split
  · exact Or.inl rfl
  · rename_i wa _
    by_cases h : r.arch_timer_read_ool_enabled = true ∧
        (r.timer_unstable_counter_workaround cpu).isSome = true
    · exact Or.inl (by rw [if_pos h])
    · refine Or.inr ⟨wa, h, ?_⟩
      rw [if_neg h]
      cases type <;> rfl

theorem counter_register_registry (cs : counter_setup) (type : Nat) (r : Registry)
    (c : clocksource_state) :
    (arch_counter_register cs type r c).1 =
      if type &&& cs.ARCH_TIMER_TYPE_CP15 ≠ 0 then { r with vdso_direct := r.vdso_default }
      else r := by
  unfold arch_counter_register
  by_cases h1 : type &&& cs.ARCH_TIMER_TYPE_CP15 ≠ 0 <;>
    by_cases h2 : cs.arch_counter_suspend_stop = true <;> simp [h1, h2]

/-- The invariant of the registry: a core holds a workaround only if the flag is on. -/
theorem apply_op_invariant (env : Env) (op : registry_op) (r : Registry)
    (h : r.arch_timer_read_ool_enabled = false →
      ∀ c, r.timer_unstable_counter_workaround c = none) :
    (apply_op env r op).arch_timer_read_ool_enabled = false →
      ∀ c, (apply_op env r op).timer_unstable_counter_workaround c = none := by
  cases op with
  | enable wa local_ cpu =>
    intro hf
    simp [apply_op, enable_workaround_flag] at hf
  | check type arg cpu =>
    simp only [apply_op]
    rcases check_ool_workaround_cases env type arg cpu r with h1 | ⟨wa, _, h1⟩
    · rw [h1]; exact h
    · rw [h1]
      intro hf
      simp [enable_workaround_flag] at hf
  | counter_register cs type c =>
    simp only [apply_op, counter_register_registry]
    split <;> exact h

theorem run_ops_invariant (env : Env) (ops : List registry_op) :
    ∀ r : Registry,
      (r.arch_timer_read_ool_enabled = false →
        ∀ c, r.timer_unstable_counter_workaround c = none) →
      (run_ops env ops r).arch_timer_read_ool_enabled = false →
        ∀ c, (run_ops env ops r).timer_unstable_counter_workaround c = none := by
  induction ops with
  | nil => intro r h; exact h
  | cons op rest ih =>
    intro r h
    exact ih (apply_op env r op) (apply_op_invariant env op r h)

theorem run_ops_append (env : Env) (ops1 ops2 : List registry_op) (r : Registry) :
    run_ops env (ops1 ++ ops2) r = run_ops env ops2 (run_ops env ops1 r) := by
  simp [run_ops, List.foldl_append]

theorem check_keeps_slot (env : Env) (type : arch_timer_erratum_match_type)
    (arg : match_arg) (cpu c : Nat) (r : Registry) (W : arch_timer_erratum_workaround)
    (hflag : r.arch_timer_read_ool_enabled = true)
    (hW : r.timer_unstable_counter_workaround c = some W)
    (hop : cpu = c ∨ type = .ate_match_local_cap_id) :
    (arch_timer_check_ool_workaround env type arg cpu r).arch_timer_read_ool_enabled = true ∧
    (arch_timer_check_ool_workaround env type arg cpu r).timer_unstable_counter_workaround c
      = some W := by
  rcases check_ool_workaround_cases env type arg cpu r with h1 | ⟨wa, hno, h1⟩
  · rw [h1]; exact ⟨hflag, hW⟩
  · rw [h1]
    refine ⟨enable_workaround_flag _ _ _ _ _, ?_⟩
    have hne : cpu ≠ c := by
      intro e
      subst e
      exact hno ⟨hflag, by rw [hW]; rfl⟩
    rcases hop with e | e
    · exact absurd e hne
    · subst e
      rw [enable_workaround_slots]
      simp only [decide_True, if_true]
      rw [Function.update_noteq (Ne.symm hne)]
      exact hW

theorem apply_op_vdso_off (env : Env) (op : registry_op) (r : Registry)
    (h1 : r.vdso_direct = false) (h2 : r.vdso_default = false) :
    (apply_op env r op).vdso_direct = false ∧ (apply_op env r op).vdso_default = false := by
  have hen : ∀ wa local_ cpu,
      (arch_timer_enable_workaround env wa local_ cpu r).vdso_direct = false ∧
      (arch_timer_enable_workaround env wa local_ cpu r).vdso_default = false := by
    intro wa local_ cpu
    have h := enable_workaround_vdso env wa local_ cpu r
    rw [h.1, h.2, h1, h2]
    simp
  cases op with
  | enable wa local_ cpu => exact hen wa local_ cpu
  | check type arg cpu =>
    simp only [apply_op]
    rcases check_ool_workaround_cases env type arg cpu r with e | ⟨wa, _, e⟩
    · rw [e]; exact ⟨h1, h2⟩
    · rw [e]; exact hen wa _ cpu
  | counter_register cs type c =>
    simp only [apply_op, counter_register_registry]
    split
    · exact ⟨h2, h2⟩
    · exact ⟨h1, h2⟩

theorem run_ops_vdso_off (env : Env) (ops : List registry_op) :
    ∀ r : Registry, r.vdso_direct = false → r.vdso_default = false →
      (run_ops env ops r).vdso_direct = false ∧ (run_ops env ops r).vdso_default = false := by
  induction ops with
  | nil => intro r h1 h2; exact ⟨h1, h2⟩
  | cons op rest ih =>
    intro r h1 h2
    exact ih (apply_op env r op) (apply_op_vdso_off env op r h1 h2).1
      (apply_op_vdso_off env op r h1 h2).2

/-! ## Theorems: enabling workarounds -/

/-- C13: `arch_timer_enable_workaround(wa, local)` run on a core: with local = true
the slot of that core becomes `wa` and the slot of every other core is
unchanged; with local = false the slot of every possible core becomes `wa`; in
both cases the erratum flag is true afterwards. -/
theorem enable_workaround_scope (env : Env) (wa : arch_timer_erratum_workaround)
    (cpu : Nat) (r : Registry) :
    (arch_timer_enable_workaround env wa true cpu r).timer_unstable_counter_workaround cpu
      = some wa ∧
    (∀ c, c ≠ cpu →
      (arch_timer_enable_workaround env wa true cpu r).timer_unstable_counter_workaround c
        = r.timer_unstable_counter_workaround c) ∧
    (∀ c, env.cpu_possible c = true →
      (arch_timer_enable_workaround env wa false cpu r).timer_unstable_counter_workaround c
        = some wa) ∧
    (∀ local_,
      (arch_timer_enable_workaround env wa local_ cpu r).arch_timer_read_ool_enabled = true) := by
  refine ⟨?_, ?_, ?_, fun local_ => enable_workaround_flag env wa local_ cpu r⟩
  · rw [enable_workaround_slots]; simp
  · intro c hc
    rw [enable_workaround_slots]
    simp [Function.update_noteq hc]
  · intro c hc
    rw [enable_workaround_slots]
    simp [hc]

/-- C14, as stated, fails: from the initial registry, a local-capability check
on core 1 gives core 1 the 858921 workaround; a device-tree check then run on
core 0, whose own slot is empty, enables the Freescale workaround globally and
replaces the workaround of core 1. -/
theorem sticky_workaround_counterexample :
    ((run_ops env_sample [.check .ate_match_local_cap_id .null 1]
        registry_init).timer_unstable_counter_workaround 1).map (fun w => w.desc)
      = some "ARM erratum 858921" ∧
    ((run_ops env_sample
        [.check .ate_match_local_cap_id .null 1, .check .ate_match_dt (.np np_all) 0]
        registry_init).timer_unstable_counter_workaround 1).map (fun w => w.desc)
      = some "Freescale erratum a005858" :=
  ⟨rfl, rfl⟩

/-- C14 amended: starting from the initial registry, once the slot of a core
holds a workaround W, it still holds W after any further sequence of
`arch_timer_check_ool_workaround` calls each of which either runs on that core
(any match kind) or is of the local-capability kind (any core). -/
theorem sticky_workaround_same_core_or_local (env : Env) (ops0 ops : List registry_op)
    (c : Nat) (W : arch_timer_erratum_workaround)
    (hW : (run_ops env ops0 registry_init).timer_unstable_counter_workaround c = some W)
    (hops : ∀ op, op ∈ ops → ∃ type arg cpu, op = registry_op.check type arg cpu ∧
      (cpu = c ∨ type = .ate_match_local_cap_id)) :
    (run_ops env (ops0 ++ ops) registry_init).timer_unstable_counter_workaround c = some W := by
  have hflag0 : (run_ops env ops0 registry_init).arch_timer_read_ool_enabled = true := by
    cases hf : (run_ops env ops0 registry_init).arch_timer_read_ool_enabled with
    | true => rfl
    | false =>
      have := run_ops_invariant env ops0 registry_init (fun _ _ => rfl) hf c
      rw [hW] at this
      cases this
  rw [run_ops_append]
  have key : ∀ (l : List registry_op) (r : Registry),
      r.arch_timer_read_ool_enabled = true →
      r.timer_unstable_counter_workaround c = some W →
      (∀ op, op ∈ l → ∃ type arg cpu, op = registry_op.check type arg cpu ∧
        (cpu = c ∨ type = .ate_match_local_cap_id)) →
      (run_ops env l r).timer_unstable_counter_workaround c = some W := by
    intro l
    induction l with
    | nil => intro r _ h _; exact h
    | cons op rest ih =>
      intro r hf hs hl
      obtain ⟨type, arg, cpu, hop, hcase⟩ := hl op (List.mem_cons_self _ _)
      have hk := check_keeps_slot env type arg cpu c r W hf hs hcase
      have hstep : apply_op env r op = arch_timer_check_ool_workaround env type arg cpu r := by
        rw [hop]; rfl
      show (run_ops env rest (apply_op env r op)).timer_unstable_counter_workaround c = some W
      rw [hstep]
      exact ih _ hk.1 hk.2 (fun o ho => hl o (List.mem_cons_of_mem _ ho))
  exact key ops _ hflag0 hW hops

/-- C14 amended, instantiated: core 1 holds the 858921 workaround; a device-tree
check run on core 1 and a local-capability check run on core 0 leave it. -/
theorem sticky_workaround_same_core_or_local_witness :
    (run_ops env_sample [.check .ate_match_local_cap_id .null 1]
        registry_init).timer_unstable_counter_workaround 1 = some wa_858921 ∧
    (run_ops env_sample
        ([.check .ate_match_local_cap_id .null 1] ++
          [.check .ate_match_dt (.np np_all) 1, .check .ate_match_local_cap_id .null 0])
        registry_init).timer_unstable_counter_workaround 1 = some wa_858921 :=
  ⟨rfl,
   sticky_workaround_same_core_or_local env_sample [.check .ate_match_local_cap_id .null 1]
     [.check .ate_match_dt (.np np_all) 1, .check .ate_match_local_cap_id .null 0]
     1 wa_858921 rfl
     (fun op hop => by
       rcases List.mem_cons.mp hop with h | h
       · exact ⟨_, _, _, h, Or.inl rfl⟩
       · rw [List.mem_singleton] at h
         exact ⟨_, _, _, h, Or.inr rfl⟩)⟩

/-- C15: starting from the initial registry (flag false, every slot empty), after
every sequence of enable, check and counter-registration calls, if the erratum
flag is false then no core holds a workaround. -/
theorem flag_off_means_no_workaround (env : Env) (ops : List registry_op)
    (hflag : (run_ops env ops registry_init).arch_timer_read_ool_enabled = false) (c : Nat) :
    (run_ops env ops registry_init).timer_unstable_counter_workaround c = none :=
  run_ops_invariant env ops registry_init (fun _ _ => rfl) hflag c

/-- C15 instantiated: a device-tree check on a node without properties matches
nothing; the flag stays false and core 0 holds no workaround. -/
theorem flag_off_means_no_workaround_witness :
    (run_ops env_sample [.check .ate_match_dt (.np np_empty) 0]
        registry_init).arch_timer_read_ool_enabled = false ∧
    (run_ops env_sample [.check .ate_match_dt (.np np_empty) 0]
        registry_init).timer_unstable_counter_workaround 0 = none :=
  ⟨rfl, flag_off_means_no_workaround env_sample [.check .ate_match_dt (.np np_empty) 0] rfl 0⟩

/-- C16: enabling a descriptor that supplies `read_cntvct_el0` sets `vdso_direct`
and `vdso_default` to false; enabling a descriptor without it leaves both as
they were; and after such a descriptor has been enabled, both are still false
after every further sequence of enable, check and `arch_counter_register`
calls. -/
theorem vdso_disable_is_monotone (env : Env) (wa : arch_timer_erratum_workaround)
    (local_ : Bool) (cpu : Nat) (r : Registry) :
    (wa.read_cntvct_el0.isSome = true →
      (arch_timer_enable_workaround env wa local_ cpu r).vdso_direct = false ∧
      (arch_timer_enable_workaround env wa local_ cpu r).vdso_default = false) ∧
    (wa.read_cntvct_el0.isSome = false →
      (arch_timer_enable_workaround env wa local_ cpu r).vdso_direct = r.vdso_direct ∧
      (arch_timer_enable_workaround env wa local_ cpu r).vdso_default = r.vdso_default) ∧
    (wa.read_cntvct_el0.isSome = true → ∀ ops : List registry_op,
      (run_ops env ops (arch_timer_enable_workaround env wa local_ cpu r)).vdso_direct = false ∧
      (run_ops env ops (arch_timer_enable_workaround env wa local_ cpu r)).vdso_default
        = false) := by
  have h := enable_workaround_vdso env wa local_ cpu r
  refine ⟨?_, ?_, ?_⟩
  · intro hs
    rw [h.1, h.2, hs]
    simp
  · intro hs
    rw [h.1, h.2, hs]
    simp
  · intro hs ops
    have h1 : (arch_timer_enable_workaround env wa local_ cpu r).vdso_direct = false := by
      rw [h.1, hs]; simp
    have h2 : (arch_timer_enable_workaround env wa local_ cpu r).vdso_default = false := by
      rw [h.2, hs]; simp
    exact run_ops_vdso_off env ops _ h1 h2

/-- C16 instantiated: the 858921 descriptor is enabled locally on core 0 of a
registry with both flags true; a descriptor without override is then enabled
globally and the counter is registered for the privileged timers: both flags
are false.  Enabling only the descriptor without override leaves both true. -/
theorem vdso_disable_is_monotone_witness :
    wa_858921.read_cntvct_el0.isSome = true ∧
    registry_double.vdso_direct = true ∧ registry_double.vdso_default = true ∧
    ((run_ops env_sample
        [.enable wa_plain false 1, .counter_register counter_setup_sample 1 clocksource_sample]
        (arch_timer_enable_workaround env_sample wa_858921 true 0 registry_double)).vdso_direct
      = false ∧
     (run_ops env_sample
        [.enable wa_plain false 1, .counter_register counter_setup_sample 1 clocksource_sample]
        (arch_timer_enable_workaround env_sample wa_858921 true 0 registry_double)).vdso_default
      = false) ∧
    ((arch_timer_enable_workaround env_sample wa_plain false 1 registry_double).vdso_direct
      = registry_double.vdso_direct ∧
     (arch_timer_enable_workaround env_sample wa_plain false 1 registry_double).vdso_default
      = registry_double.vdso_default) :=
  ⟨rfl, rfl, rfl,
   (vdso_disable_is_monotone env_sample wa_858921 true 0 registry_double).2.2 rfl
     [.enable wa_plain false 1, .counter_register counter_setup_sample 1 clocksource_sample],
   (vdso_disable_is_monotone env_sample wa_plain false 1 registry_double).2.1 rfl⟩

/-! ## Theorems: PPI selector and trigger check -/

/-- C18: `arch_timer_select_ppi` returns the hypervisor PPI if the kernel runs in
hyp mode; otherwise the virtual PPI if hyp mode is unavailable and the virtual
PPI is non-zero; otherwise the non-secure physical PPI on arm64 and the secure
physical PPI elsewhere.  It returns the virtual PPI only when the virtual PPI is
non-zero, and of the PPI array it depends on the virtual entry only. -/
theorem select_ppi_decision (hyp avail arm64 : Bool) (ppi ppi' : arch_timer_ppi_nr → Int) :
    (hyp = true → arch_timer_select_ppi hyp avail ppi arm64 = .ARCH_TIMER_HYP_PPI) ∧
    (hyp = false → avail = false → ppi .ARCH_TIMER_VIRT_PPI ≠ 0 →
      arch_timer_select_ppi hyp avail ppi arm64 = .ARCH_TIMER_VIRT_PPI) ∧
    (hyp = false → (avail = true ∨ ppi .ARCH_TIMER_VIRT_PPI = 0) → arm64 = true →
      arch_timer_select_ppi hyp avail ppi arm64 = .ARCH_TIMER_PHYS_NONSECURE_PPI) ∧
    (hyp = false → (avail = true ∨ ppi .ARCH_TIMER_VIRT_PPI = 0) → arm64 = false →
      arch_timer_select_ppi hyp avail ppi arm64 = .ARCH_TIMER_PHYS_SECURE_PPI) ∧
    (arch_timer_select_ppi hyp avail ppi arm64 = .ARCH_TIMER_VIRT_PPI →
      ppi .ARCH_TIMER_VIRT_PPI ≠ 0) ∧
    (ppi .ARCH_TIMER_VIRT_PPI = ppi' .ARCH_TIMER_VIRT_PPI →
      arch_timer_select_ppi hyp avail ppi arm64 = arch_timer_select_ppi hyp avail ppi' arm64) := by
  refine ⟨?_, ?_, ?_, ?_, ?_, ?_⟩
  · intro h; simp [arch_timer_select_ppi, h]
  · intro h1 h2 h3; simp [arch_timer_select_ppi, h1, h2, h3]
  · intro h1 h2 h3
    rcases h2 with h2 | h2 <;> simp [arch_timer_select_ppi, h1, h2, h3]
  · intro h1 h2 h3
    rcases h2 with h2 | h2 <;> simp [arch_timer_select_ppi, h1, h2, h3]
  · intro h hz
    cases hyp <;> cases avail <;> cases arm64 <;> simp [arch_timer_select_ppi, hz] at h
  · intro h
    simp [arch_timer_select_ppi, h]

/-- C20: `check_ppi_trigger` always returns: for the trigger type reported for
the interrupt (as a 32-bit value) it returns that value, without warning, when
it is IRQF_TRIGGER_HIGH or IRQF_TRIGGER_LOW, and returns IRQF_TRIGGER_LOW with
two warnings for every other value; so its result is always one of the two. -/
theorem check_ppi_trigger_coerces (HIGH LOW : Nat) (irq_get_trigger_type : Int → Nat)
    (irq : Int) :
    ((irq_get_trigger_type irq % 2 ^ 32 = HIGH ∨ irq_get_trigger_type irq % 2 ^ 32 = LOW) →
      check_ppi_trigger HIGH LOW irq_get_trigger_type irq
        = (irq_get_trigger_type irq % 2 ^ 32, [])) ∧
    (irq_get_trigger_type irq % 2 ^ 32 ≠ HIGH → irq_get_trigger_type irq % 2 ^ 32 ≠ LOW →
      (check_ppi_trigger HIGH LOW irq_get_trigger_type irq).1 = LOW ∧
      (check_ppi_trigger HIGH LOW irq_get_trigger_type irq).2.length = 2) ∧
    ((check_ppi_trigger HIGH LOW irq_get_trigger_type irq).1 = HIGH ∨
     (check_ppi_trigger HIGH LOW irq_get_trigger_type irq).1 = LOW) := by
  unfold check_ppi_trigger
  generalize irq_get_trigger_type irq % 2 ^ 32 = f
  by_cases h1 : f = HIGH
  · simp [h1]
  · by_cases h2 : f = LOW <;> simp [h1, h2]

/-- C20 instantiated with IRQF_TRIGGER_HIGH = 4 and IRQF_TRIGGER_LOW = 8: a
reported edge-rising trigger (1) is coerced to 8 with two warnings, a reported
level-high trigger (4) is returned as it is. -/
theorem check_ppi_trigger_coerces_witness :
    (check_ppi_trigger 4 8 (fun _ => 1) 30).1 = 8 ∧
    (check_ppi_trigger 4 8 (fun _ => 1) 30).2.length = 2 ∧
    check_ppi_trigger 4 8 (fun _ => 4) 30 = (4 % 2 ^ 32, []) :=
  ⟨((check_ppi_trigger_coerces 4 8 (fun _ => 1) 30).2.1 (by decide) (by decide)).1,
   ((check_ppi_trigger_coerces 4 8 (fun _ => 1) 30).2.1 (by decide) (by decide)).2,
   (check_ppi_trigger_coerces 4 8 (fun _ => 4) 30).1 (Or.inl (by decide))⟩

/-! ## Theorems: user access to the counter -/

theorem testBit_mod_u32 (x i : Nat) :
    (x % 4294967296).testBit i = (decide (i < 32) && x.testBit i) := by
  have h : (4294967296 : Nat) = 2 ^ 32 := by norm_num
  rw [h, Nat.testBit_mod_two_pow]

theorem set_user_access_testBit (K : cntkctl_bits) (vct_access : Bool) (r : Registry)
    (cpu old v i : Nat)
    (hv : K.ARCH_TIMER_USR_VCT_ACCESS_EN = 2 ^ v) (hv32 : v < 32) :
    (arch_counter_set_user_access K vct_access r cpu old).testBit i =
      if i = v then (vct_access && !arch_timer_this_cpu_has_cntvct_wa r cpu)
      else (decide (i < 32) && old.testBit i &&
        !(K.ARCH_TIMER_USR_PT_ACCESS_EN.testBit i || K.ARCH_TIMER_USR_VT_ACCESS_EN.testBit i ||
          K.ARCH_TIMER_VIRT_EVT_EN.testBit i || K.ARCH_TIMER_USR_PCT_ACCESS_EN.testBit i)) := by
  unfold arch_counter_set_user_access
  have hv64 : v < 64 := by omega
  by_cases hi : i = v
  · subst hi
    cases hwa : arch_timer_this_cpu_has_cntvct_wa r cpu <;> cases vct_access <;>
      simp [hv, testBit_mod_u32, Nat.testBit_and, Nat.testBit_or, testBit_not64,
        Nat.testBit_two_pow, hv32, hv64]
  · have hvi : ¬ v = i := fun e => hi e.symm
    by_cases h32 : i < 32
    · have h64 : i < 64 := by omega
      cases hwa : arch_timer_this_cpu_has_cntvct_wa r cpu <;> cases vct_access <;>
        simp [hi, hvi, hv, testBit_mod_u32, Nat.testBit_and, Nat.testBit_or,
          testBit_not64, Nat.testBit_two_pow, h32, h64]
    · cases hwa : arch_timer_this_cpu_has_cntvct_wa r cpu <;> cases vct_access <;>
        simp [hi, hv, testBit_mod_u32, h32]

theorem this_cpu_has_cntvct_wa_iff (r : Registry) (cpu : Nat) :
    arch_timer_this_cpu_has_cntvct_wa r cpu = true ↔
      ∃ wa, r.timer_unstable_counter_workaround cpu = some wa ∧
        wa.read_cntvct_el0.isSome = true := by
  unfold arch_timer_this_cpu_has_cntvct_wa
  cases h : r.timer_unstable_counter_workaround cpu with
  | none => simp
  | some wa => simp

/-- C17: let the user virtual-counter access mask be the single bit `v` of the
32-bit register, a bit none of the other four masks contains.  For every prior
CNTKCTL value, after `arch_counter_set_user_access` the user physical-timer,
virtual-timer and physical-counter access bits and the virtual event-stream
enable bit are clear; bit `v` is set if and only if the configuration option is
on and it is not the case that the slot of the running core holds a descriptor
whose `read_cntvct_el0` is non-null (which is exactly what
`arch_timer_this_cpu_has_cntvct_wa` answers); and every bit outside the five
masks is as in the prior 32-bit value. -/
theorem set_user_access_bits (K : cntkctl_bits) (vct_access : Bool) (r : Registry)
    (cpu old v : Nat)
    (hv : K.ARCH_TIMER_USR_VCT_ACCESS_EN = 2 ^ v) (hv32 : v < 32)
    (hdis : (K.ARCH_TIMER_USR_PT_ACCESS_EN ||| K.ARCH_TIMER_USR_VT_ACCESS_EN |||
        K.ARCH_TIMER_VIRT_EVT_EN ||| K.ARCH_TIMER_USR_PCT_ACCESS_EN).testBit v = false) :
    arch_counter_set_user_access K vct_access r cpu old &&& K.ARCH_TIMER_USR_PT_ACCESS_EN = 0 ∧
    arch_counter_set_user_access K vct_access r cpu old &&& K.ARCH_TIMER_USR_VT_ACCESS_EN = 0 ∧
    arch_counter_set_user_access K vct_access r cpu old &&& K.ARCH_TIMER_USR_PCT_ACCESS_EN = 0 ∧
    arch_counter_set_user_access K vct_access r cpu old &&& K.ARCH_TIMER_VIRT_EVT_EN = 0 ∧
    ((arch_counter_set_user_access K vct_access r cpu old).testBit v = true ↔
      (vct_access = true ∧
        ¬ ∃ wa, r.timer_unstable_counter_workaround cpu = some wa ∧
          wa.read_cntvct_el0.isSome = true)) ∧
    (arch_timer_this_cpu_has_cntvct_wa r cpu = true ↔
      ∃ wa, r.timer_unstable_counter_workaround cpu = some wa ∧
        wa.read_cntvct_el0.isSome = true) ∧
    (∀ i, i ≠ v →
      (K.ARCH_TIMER_USR_PT_ACCESS_EN ||| K.ARCH_TIMER_USR_VT_ACCESS_EN |||
        K.ARCH_TIMER_VIRT_EVT_EN ||| K.ARCH_TIMER_USR_PCT_ACCESS_EN).testBit i = false →
      (arch_counter_set_user_access K vct_access r cpu old).testBit i
        = (old % 2 ^ 32).testBit i) := by
  simp only [Nat.testBit_or, Bool.or_eq_false_iff] at hdis
  obtain ⟨⟨⟨hpt, hvt⟩, hev⟩, hpc⟩ := hdis
  have clear : ∀ m : Nat, m.testBit v = false →
      (∀ i, i ≠ v → m.testBit i = true →
        (K.ARCH_TIMER_USR_PT_ACCESS_EN.testBit i || K.ARCH_TIMER_USR_VT_ACCESS_EN.testBit i ||
          K.ARCH_TIMER_VIRT_EVT_EN.testBit i || K.ARCH_TIMER_USR_PCT_ACCESS_EN.testBit i)
          = true) →
      arch_counter_set_user_access K vct_access r cpu old &&& m = 0 := by
    intro m hmv hm
    apply Nat.eq_of_testBit_eq
    intro i
    rw [Nat.testBit_and, set_user_access_testBit K vct_access r cpu old v i hv hv32,
      Nat.zero_testBit]
    by_cases hi : i = v
    · subst hi; simp [hmv]
    · cases hmi : m.testBit i with
      | false => simp
      | true => simp [hi, hm i hi hmi]
  refine ⟨clear _ hpt ?_, clear _ hvt ?_, clear _ hpc ?_, clear _ hev ?_, ?_,
    this_cpu_has_cntvct_wa_iff r cpu, ?_⟩
  · intro i _ h; simp [h]
  · intro i _ h; simp [h]
  · intro i _ h; simp [h]
  · intro i _ h; simp [h]
  · rw [set_user_access_testBit K vct_access r cpu old v v hv hv32,
      ← this_cpu_has_cntvct_wa_iff r cpu]
    simp
  · intro i hi hm
    simp only [Nat.testBit_or, Bool.or_eq_false_iff] at hm
    obtain ⟨⟨⟨h1, h2⟩, h3⟩, h4⟩ := hm
    rw [set_user_access_testBit K vct_access r cpu old v i hv hv32, Nat.testBit_mod_two_pow]
    simp [hi, h1, h2, h3, h4]

/-- C17 instantiated on the arm64 layout (bit `v` = 1) with the option on and
prior value 0x3ff: with no workaround on core 0 the result is 0xfa; with a
workaround that supplies no counter-read override (`wa_double`) it is 0xfa as
well; with the 1188873 workaround, which supplies one, it is 0xf8. -/
theorem set_user_access_bits_witness :
    arch_counter_set_user_access cntkctl_sample true registry_init 0 0x3ff = 0xfa ∧
    arch_counter_set_user_access cntkctl_sample true registry_double 0 0x3ff = 0xfa ∧
    arch_counter_set_user_access cntkctl_sample true registry_busy 0 0x3ff = 0xf8 ∧
    ((arch_counter_set_user_access cntkctl_sample true registry_double 0 0x3ff).testBit 1
        = true ↔
      (true = true ∧
        ¬ ∃ wa, registry_double.timer_unstable_counter_workaround 0 = some wa ∧
          wa.read_cntvct_el0.isSome = true)) ∧
    ((arch_counter_set_user_access cntkctl_sample true registry_busy 0 0x3ff).testBit 1
        = true ↔
      (true = true ∧
        ¬ ∃ wa, registry_busy.timer_unstable_counter_workaround 0 = some wa ∧
          wa.read_cntvct_el0.isSome = true)) :=
  ⟨by decide, by decide, by decide,
   (set_user_access_bits cntkctl_sample true registry_double 0 0x3ff 1 rfl (by decide)
     (by decide)).2.2.2.2.1,
   (set_user_access_bits cntkctl_sample true registry_busy 0 0x3ff 1 rfl (by decide)
     (by decide)).2.2.2.2.1⟩

/-! ## Theorems: event stream divider -/

theorem and_two_pow_ne_zero_iff (d i : Nat) : d &&& 2 ^ i ≠ 0 ↔ d.testBit i = true := by
  constructor
  · intro h
    by_contra hb
    apply h
    apply Nat.eq_of_testBit_eq
    intro j
    rw [Nat.testBit_and, Nat.testBit_two_pow, Nat.zero_testBit]
    by_cases hj : i = j
    · subst hj; simp [hb]
    · simp [hj]
  · intro h h0
    have := congrArg (fun x => x.testBit i) h0
    simp [Nat.testBit_and, Nat.testBit_two_pow, h] at this

theorem testBit_below_top (d n : Nat) (h1 : 2 ^ (n + 1) ≤ d) (h2 : d < 2 ^ (n + 2)) :
    d.testBit n = true ↔ 3 * 2 ^ n ≤ d := by
  have hp : 0 < 2 ^ n := by positivity
  have e1 : 2 ^ (n + 1) = 2 * 2 ^ n := by ring
  have e2 : 2 ^ (n + 2) = 4 * 2 ^ n := by ring
  rw [e1] at h1
  rw [e2] at h2
  have hq1 : 2 ≤ d / 2 ^ n := (Nat.le_div_iff_mul_le hp).mpr h1
  have hq2 : d / 2 ^ n < 4 := (Nat.div_lt_iff_lt_mul hp).mpr h2
  have hq3 : 3 ≤ d / 2 ^ n ↔ 3 * 2 ^ n ≤ d := Nat.le_div_iff_mul_le hp
  rw [Nat.testBit_to_div_mod, decide_eq_true_eq, ← hq3]
  omega

theorem evt_stream_lsb_eq (F rate : Nat) (hd : 1 ≤ evt_stream_div F rate) :
    evt_stream_lsb F rate =
      if 1 ≤ (evt_stream_div F rate).log2 ∧
          3 * 2 ^ ((evt_stream_div F rate).log2 - 1) ≤ evt_stream_div F rate
      then (((evt_stream_div F rate).log2 + 1 : Nat) : Int)
      else (((evt_stream_div F rate).log2 : Nat) : Int) := by
  unfold evt_stream_lsb
  generalize evt_stream_div F rate = d at hd ⊢
  have hd0 : d ≠ 0 := by omega
  have hlo := Nat.log2_self_le hd0
  have hhi := @Nat.lt_log2_self d
  simp only [fls, hd0, if_false, BIT]
  have hcast : (((d.log2 + 1 : Nat) : Int) - 1) = ((d.log2 : Nat) : Int) := by
    push_cast; ring
  rw [hcast]
  cases hL : d.log2 with
  | zero => simp
  | succ n =>
    rw [hL] at hlo hhi
    have ht : (((n + 1 : Nat) : Int) - 1).toNat = n := by
      push_cast; simp
    have hpos : ((n + 1 : Nat) : Int) > 0 := by positivity
    simp only [ht, and_two_pow_ne_zero_iff, testBit_below_top d n hlo hhi, hpos, true_and,
      Nat.le_add_left, Nat.add_sub_cancel]
    by_cases h3 : 3 * 2 ^ n ≤ d
    · simp only [h3, if_true]
      push_cast
      ring
    · simp only [h3, if_false]

theorem nearest_pow_two (d L : Nat) (h1 : 2 ^ L ≤ d) (h2 : d < 2 ^ (L + 1)) (k : Nat) :
    |(2 : Int) ^ (if 1 ≤ L ∧ 3 * 2 ^ (L - 1) ≤ d then L + 1 else L) - (d : Int)|
      ≤ |(2 : Int) ^ k - (d : Int)| := by
  have h1' : (2 : Int) ^ L ≤ d := by exact_mod_cast h1
  have h2' : (d : Int) < 2 ^ (L + 1) := by exact_mod_cast h2
  have hpow : (2 : Int) ^ (L + 1) = 2 * 2 ^ L := by ring
  have hk : (d : Int) - 2 ^ L ≤ |(2 : Int) ^ k - d| ∨
      (2 : Int) ^ (L + 1) - d ≤ |(2 : Int) ^ k - d| := by
    rcases Nat.lt_or_ge L k with h | h
    · right
      have hle : (2 : Int) ^ (L + 1) ≤ 2 ^ k := by
        exact_mod_cast Nat.pow_le_pow_right (by norm_num : 0 < 2) (Nat.succ_le_of_lt h)
      calc (2 : Int) ^ (L + 1) - d ≤ 2 ^ k - d := by linarith
        _ ≤ |(2 : Int) ^ k - d| := le_abs_self _
    · left
      have hle : (2 : Int) ^ k ≤ 2 ^ L := by
        exact_mod_cast Nat.pow_le_pow_right (by norm_num : 0 < 2) h
      calc (d : Int) - 2 ^ L ≤ -((2 : Int) ^ k - d) := by linarith
        _ ≤ |(2 : Int) ^ k - d| := neg_le_abs _
  by_cases hc : 1 ≤ L ∧ 3 * 2 ^ (L - 1) ≤ d
  · rw [if_pos hc]
    obtain ⟨hL, h3⟩ := hc
    have h3n : 3 * 2 ^ L ≤ 2 * d := by
      obtain ⟨n, rfl⟩ : ∃ n, L = n + 1 := ⟨L - 1, by omega⟩
      simp only [Nat.add_sub_cancel] at h3
      rw [pow_succ]
      omega
    have h3' : (3 : Int) * 2 ^ L ≤ 2 * d := by exact_mod_cast h3n
    rw [abs_of_nonneg (by linarith)]
    rcases hk with hk | hk <;> linarith
  · rw [if_neg hc]
    have h3n : 2 * d ≤ 3 * 2 ^ L := by
      rcases Nat.eq_zero_or_pos L with h0 | hpos
      · subst h0
        simp at h1 h2 ⊢
        omega
      · obtain ⟨n, rfl⟩ : ∃ n, L = n + 1 := ⟨L - 1, by omega⟩
        have h3 : ¬ 3 * 2 ^ n ≤ d := by
          intro h
          exact hc ⟨by omega, by simpa using h⟩
        rw [pow_succ]
        omega
    have h3' : 2 * (d : Int) ≤ 3 * 2 ^ L := by exact_mod_cast h3n
    rw [abs_of_nonpos (by linarith), neg_sub]
    rcases hk with hk | hk <;> linarith

theorem evt_stream_tie (d L j : Nat) (h1 : 2 ^ L ≤ d) (h2 : d < 2 ^ (L + 1))
    (hj : 2 * d = 2 ^ j + 2 ^ (j + 1)) : j = L ∧ 1 ≤ L ∧ 3 * 2 ^ (L - 1) ≤ d := by
  have e1 : 2 ^ (j + 1) = 2 * 2 ^ j := by ring
  have e2 : 2 ^ (L + 1) = 2 * 2 ^ L := by ring
  rw [e1] at hj
  rw [e2] at h2
  have hjL : j = L := by
    rcases Nat.lt_trichotomy j L with h | h | h
    · exfalso
      have hle : 2 ^ (j + 1) ≤ 2 ^ L := Nat.pow_le_pow_right (by norm_num) h
      rw [e1] at hle
      omega
    · exact h
    · exfalso
      have hle : 2 ^ (L + 1) ≤ 2 ^ j := Nat.pow_le_pow_right (by norm_num) h
      rw [e2] at hle
      omega
  subst hjL
  have hpos : 1 ≤ j := by
    rcases Nat.eq_zero_or_pos j with h0 | h
    · subst h0
      simp at hj
      omega
    · exact h
  obtain ⟨n, rfl⟩ : ∃ n, j = n + 1 := ⟨j - 1, by omega⟩
  refine ⟨rfl, hpos, ?_⟩
  simp only [Nat.add_sub_cancel]
  have e3 : 2 ^ (n + 1) = 2 * 2 ^ n := by ring
  rw [e3] at hj
  omega

/-- C19: for every timer rate, with d = rate / ARCH_TIMER_EVT_STREAM_FREQ / 2, the
exponent `arch_timer_configure_evtstream` passes to `arch_timer_evtstrm_enable`
lies between 0 and 15.  When d is at least 1 and the exponent is not clamped
(the local `lsb` is at most 15), the exponent e equals `lsb`, 2^e is at least as
close to d as every power of two 2^k, and when d is exactly midway between 2^j
and 2^(j+1) the exponent is j + 1. -/
theorem evt_stream_divider_nearest_pow_two (F rate : Nat) :
    0 ≤ evt_stream_divider F rate ∧ evt_stream_divider F rate ≤ 15 ∧
    (∀ (K : cntkctl_bits) (hwcap compat_hwcap : Nat) (compat : Bool) (cntkctl : Nat)
        (h : hwcap_state),
      arch_timer_configure_evtstream K hwcap compat_hwcap compat F rate cntkctl h =
        arch_timer_evtstrm_enable K hwcap compat_hwcap compat (evt_stream_divider F rate)
          cntkctl h) ∧
    (1 ≤ evt_stream_div F rate → evt_stream_lsb F rate ≤ 15 →
      evt_stream_divider F rate = evt_stream_lsb F rate ∧
      (∀ k : Nat,
        |(2 : Int) ^ (evt_stream_divider F rate).toNat - (evt_stream_div F rate : Int)|
          ≤ |(2 : Int) ^ k - (evt_stream_div F rate : Int)|) ∧
      (∀ j : Nat, 2 * evt_stream_div F rate = 2 ^ j + 2 ^ (j + 1) →
        evt_stream_divider F rate = ((j + 1 : Nat) : Int))) := by
  refine ⟨le_max_left _ _, max_le (by norm_num) (min_le_right _ _), fun _ _ _ _ _ _ => rfl, ?_⟩
  intro hd hclamp
  have hd0 : evt_stream_div F rate ≠ 0 := by omega
  have h1 := Nat.log2_self_le hd0
  have h2 := @Nat.lt_log2_self (evt_stream_div F rate)
  have hlsb := evt_stream_lsb_eq F rate hd
  have hlsb' : evt_stream_lsb F rate =
      ((if 1 ≤ (evt_stream_div F rate).log2 ∧
          3 * 2 ^ ((evt_stream_div F rate).log2 - 1) ≤ evt_stream_div F rate
        then (evt_stream_div F rate).log2 + 1 else (evt_stream_div F rate).log2 : Nat) : Int) := by
    rw [hlsb]
    split <;> rfl
  have hnn : 0 ≤ evt_stream_lsb F rate := by
    rw [hlsb']
    exact Int.ofNat_nonneg _
  have hdiv : evt_stream_divider F rate = evt_stream_lsb F rate := by
    unfold evt_stream_divider
    rw [min_eq_left hclamp, max_eq_right hnn]
  refine ⟨hdiv, ?_, ?_⟩
  · intro k
    rw [hdiv, hlsb', Int.toNat_ofNat]
    exact nearest_pow_two _ _ h1 h2 k
  · intro j hj
    obtain ⟨hjL, hL, h3⟩ := evt_stream_tie _ _ j h1 h2 hj
    rw [hdiv, hlsb', if_pos ⟨hL, h3⟩, hjL]

theorem log2_eq_of_bounds (n k : Nat) (h1 : 2 ^ k ≤ n) (h2 : n < 2 ^ (k + 1)) :
    n.log2 = k := by
  have hn : n ≠ 0 := by
    have : 0 < 2 ^ k := by positivity
    omega
  have ha : k ≤ n.log2 := (Nat.le_log2 hn).mpr h1
  have hb : n.log2 < k + 1 := (Nat.log2_lt hn).mpr h2
  omega

theorem evt_stream_lsb_sample : evt_stream_lsb 10000 19200000 = 10 := by
  have hd : evt_stream_div 10000 19200000 = 960 := by decide
  have hl : Nat.log2 960 = 9 := log2_eq_of_bounds 960 9 (by norm_num) (by norm_num)
  rw [evt_stream_lsb_eq 10000 19200000 (by decide), hd, hl]
  decide

theorem evt_stream_lsb_tie_sample : evt_stream_lsb 1 6 = 2 := by
  have hd : evt_stream_div 1 6 = 3 := by decide
  have hl : Nat.log2 3 = 1 := log2_eq_of_bounds 3 1 (by norm_num) (by norm_num)
  rw [evt_stream_lsb_eq 1 6 (by decide), hd, hl]
  decide

/-- C19 instantiated with ARCH_TIMER_EVT_STREAM_FREQ = 10000 at 19.2 MHz: d is
960 and the exponent is 10 (2^10 = 1024); and with d = 3, midway between 2 and
4, the exponent is 2. -/
theorem evt_stream_divider_nearest_pow_two_witness :
    evt_stream_div 10000 19200000 = 960 ∧
    evt_stream_divider 10000 19200000 = 10 ∧
    (∀ k : Nat, |(2 : Int) ^ (evt_stream_divider 10000 19200000).toNat
        - (evt_stream_div 10000 19200000 : Int)|
      ≤ |(2 : Int) ^ k - (evt_stream_div 10000 19200000 : Int)|) ∧
    evt_stream_divider 1 6 = ((1 + 1 : Nat) : Int) :=
  have hlsb : evt_stream_lsb 10000 19200000 = 10 := evt_stream_lsb_sample
  ⟨by decide,
   by unfold evt_stream_divider; rw [hlsb]; decide,
   ((evt_stream_divider_nearest_pow_two 10000 19200000).2.2.2 (by decide)
      (by rw [hlsb]; decide)).2.1,
   ((evt_stream_divider_nearest_pow_two 1 6).2.2.2 (by decide)
      (by rw [evt_stream_lsb_tie_sample]; decide)).2.2 1 (by decide)⟩

/-! ## Theorems: instances -/

/-- C11 instantiated: Control reads 6, the counter reads 1000 and the delta is
500 on the virtual timeline: 1500 goes to the virtual comparator, then 5 to
Control. -/
theorem erratum_set_next_event_writes_comparator_witness :
    (erratum_set_next_event_tval_generic .ARCH_TIMER_VIRT_ACCESS 500 hw_counting).trace =
      [Event.write Loc.cntv_cval_el0 1500, Event.write Loc.cntv_ctl_el0 5] ∧
    erratum_set_next_event_tval_virt 500 hw_counting =
      (0, erratum_set_next_event_tval_generic .ARCH_TIMER_VIRT_ACCESS 500 hw_counting) :=
  ⟨by
    rw [(erratum_set_next_event_writes_comparator .ARCH_TIMER_VIRT_ACCESS 500 hw_counting).1]
    decide,
   (erratum_set_next_event_writes_comparator .ARCH_TIMER_VIRT_ACCESS 500
      hw_counting).2.2.2.2.2.2⟩

/-- C13 instantiated: enabling the 858921 descriptor locally on core 2 of a
registry where core 0 runs 1188873 sets slot 2 and keeps slot 0; enabling it
globally sets slot 0, a possible core. -/
theorem enable_workaround_scope_witness :
    (arch_timer_enable_workaround env_sample wa_858921 true 2
        registry_busy).timer_unstable_counter_workaround 2 = some wa_858921 ∧
    (arch_timer_enable_workaround env_sample wa_858921 true 2
        registry_busy).timer_unstable_counter_workaround 0
      = registry_busy.timer_unstable_counter_workaround 0 ∧
    (arch_timer_enable_workaround env_sample wa_858921 false 2
        registry_busy).timer_unstable_counter_workaround 0 = some wa_858921 :=
  ⟨(enable_workaround_scope env_sample wa_858921 2 registry_busy).1,
   (enable_workaround_scope env_sample wa_858921 2 registry_busy).2.1 0 (by decide),
   (enable_workaround_scope env_sample wa_858921 2 registry_busy).2.2.1 0 rfl⟩

/-- C18 instantiated: not in hyp mode, hyp mode unavailable, virtual line 27: the
virtual PPI is selected; with hyp mode available on arm64 the non-secure
physical PPI is. -/
theorem select_ppi_decision_witness :
    arch_timer_select_ppi false false ppi_sample true = .ARCH_TIMER_VIRT_PPI ∧
    arch_timer_select_ppi false true ppi_sample true = .ARCH_TIMER_PHYS_NONSECURE_PPI :=
  ⟨(select_ppi_decision false false true ppi_sample ppi_sample).2.1 rfl rfl (by decide),
   (select_ppi_decision false true true ppi_sample ppi_sample).2.2.1 rfl (Or.inl rfl) rfl⟩

/-! ## Lemmas: third part -/

theorem timer_shutdown_eq (access : Access) (hw : Hw) :
    timer_shutdown access hw =
      (0, hw.store (reg_loc access .ARCH_TIMER_REG_CTRL)
        (arch_timer_reg_read access .ARCH_TIMER_REG_CTRL hw &&& not64 ARCH_TIMER_CTRL_ENABLE)) := by
  have hlt := and_not64_lt ARCH_TIMER_CTRL_ENABLE
    (arch_timer_reg_read_lt access .ARCH_TIMER_REG_CTRL hw)
  simp only [timer_shutdown, arch_timer_reg_write_eq, Nat.mod_eq_of_lt hlt]

theorem shutdown_value_bits (c : Nat) :
    (c &&& not64 ARCH_TIMER_CTRL_ENABLE).testBit 0 = false ∧
    ∀ i, i ≠ 0 → i < 64 → (c &&& not64 ARCH_TIMER_CTRL_ENABLE).testBit i = c.testBit i := by
  refine ⟨?_, ?_⟩
  · rw [Nat.testBit_and, testBit_not64, testBit_ENABLE]; simp
  · intro i h0 h64
    rw [Nat.testBit_and, testBit_not64, testBit_ENABLE]
    simp [h0, h64]

theorem shr32_and_one_ne_zero_iff (x : Nat) : (x >>> 32) &&& 1 ≠ 0 ↔ x.testBit 32 = true := by
  unfold Nat.testBit
  rw [Nat.and_comm]
  simp

/-! ## Theorems: shutdown, rate, erratum 858921, override dispatch -/

/-- C21: `timer_shutdown` returns 0 and performs exactly one write: the Control
value read, with bit0 (Enable) cleared and every other bit unchanged, to the
Control register of the access mode; the TimerValue register keeps its value.
Calling it twice leaves the same register file as calling it once. -/
theorem timer_shutdown_idempotent (access : Access) (hw : Hw) :
    (timer_shutdown access hw).1 = 0 ∧
    (timer_shutdown access hw).2.trace = hw.trace ++
      [Event.write (reg_loc access .ARCH_TIMER_REG_CTRL)
        (arch_timer_reg_read access .ARCH_TIMER_REG_CTRL hw &&& not64 ARCH_TIMER_CTRL_ENABLE)] ∧
    (timer_shutdown access hw).2.reg =
      Function.update hw.reg (reg_loc access .ARCH_TIMER_REG_CTRL)
        (arch_timer_reg_read access .ARCH_TIMER_REG_CTRL hw &&& not64 ARCH_TIMER_CTRL_ENABLE) ∧
    (arch_timer_reg_read access .ARCH_TIMER_REG_CTRL hw
        &&& not64 ARCH_TIMER_CTRL_ENABLE).testBit 0 = false ∧
    (∀ i, i ≠ 0 →
      (arch_timer_reg_read access .ARCH_TIMER_REG_CTRL hw
          &&& not64 ARCH_TIMER_CTRL_ENABLE).testBit i
        = (arch_timer_reg_read access .ARCH_TIMER_REG_CTRL hw).testBit i) ∧
    (timer_shutdown access hw).2.reg (reg_loc access .ARCH_TIMER_REG_TVAL)
      = hw.reg (reg_loc access .ARCH_TIMER_REG_TVAL) ∧
    (timer_shutdown access (timer_shutdown access hw).2).1 = 0 ∧
    (timer_shutdown access (timer_shutdown access hw).2).2.reg
      = (timer_shutdown access hw).2.reg ∧
    (timer_shutdown access (timer_shutdown access hw).2).2.cntvct
      = (timer_shutdown access hw).2.cntvct := by
  have hlt := and_not64_lt ARCH_TIMER_CTRL_ENABLE
    (arch_timer_reg_read_lt access .ARCH_TIMER_REG_CTRL hw)
  have hbits := shutdown_value_bits (arch_timer_reg_read access .ARCH_TIMER_REG_CTRL hw)
  refine ⟨by rw [timer_shutdown_eq], by rw [timer_shutdown_eq]; rfl,
    by rw [timer_shutdown_eq]; rfl, hbits.1, ?_, ?_, by rw [timer_shutdown_eq], ?_,
    by rw [timer_shutdown_eq, timer_shutdown_eq]; rfl⟩
  · intro i h0
    by_cases h64 : i < 64
    · exact hbits.2 i h0 h64
    · have hge : 2 ^ 32 ≤ 2 ^ i := Nat.pow_le_pow_right (by norm_num) (by omega)
      rw [Nat.testBit_lt_two_pow (lt_of_lt_of_le hlt hge),
        Nat.testBit_lt_two_pow
          (lt_of_lt_of_le (arch_timer_reg_read_lt access .ARCH_TIMER_REG_CTRL hw) hge)]
  · rw [timer_shutdown_eq]
    simp only [Hw.store]
    exact Function.update_noteq (Ne.symm (reg_loc_ctrl_ne_tval access)) _ _
  · rw [timer_shutdown_eq access (timer_shutdown access hw).2, timer_shutdown_eq]
    simp only [Hw.store, arch_timer_reg_read_eq, Function.update_same, Nat.mod_mod,
      Function.update_idem]
    rw [← arch_timer_reg_read_eq, Nat.mod_eq_of_lt hlt, Nat.and_assoc, Nat.and_self]

/-- C26: when `arch_timer_rate` is still zero, `arch_timer_of_configure_rate`
stores the node's clock-frequency property whenever it is readable, whatever
rate is passed in, and stores the passed rate when the property is absent. -/
theorem configure_rate_property_overrides (rate v : Nat) (np : device_node) :
    (np.of_property_read_u32 "clock-frequency" = some v →
      arch_timer_of_configure_rate rate np 0 = v % 2 ^ 32) ∧
    (np.of_property_read_u32 "clock-frequency" = none →
      arch_timer_of_configure_rate rate np 0 = rate % 2 ^ 32) := by
  refine ⟨?_, ?_⟩ <;> intro h <;> simp [arch_timer_of_configure_rate, h]

/-- C26 instantiated: with the property reading 19200000 a passed rate of
24000000 is ignored; without the property the passed rate is stored. -/
theorem configure_rate_property_overrides_witness :
    arch_timer_of_configure_rate 24000000 np_clock 0 = 19200000 % 2 ^ 32 ∧
    arch_timer_of_configure_rate 24000000 np_empty 0 = 24000000 % 2 ^ 32 :=
  ⟨(configure_rate_property_overrides 24000000 19200000 np_clock).1 (by decide),
   (configure_rate_property_overrides 24000000 0 np_empty).2 rfl⟩

/-- C28: `arm64_858921_read_cntvct_el0` reads the counter exactly twice, old then
new, emits no diagnostic, and returns old if bit 32 of old and new differ,
otherwise new; so it returns the second read whenever the two reads have equal
bit 32, in particular when they are equal. -/
theorem erratum_858921_read (rd : Nat → Nat) (warned : Bool) :
    (arm64_858921_read_cntvct_el0 rd warned).reads = 2 ∧
    (arm64_858921_read_cntvct_el0 rd warned).emitted = false ∧
    (arm64_858921_read_cntvct_el0 rd warned).val =
      (if (rd 0 % 2 ^ 64).testBit 32 ≠ (rd 1 % 2 ^ 64).testBit 32 then rd 0 % 2 ^ 64
       else rd 1 % 2 ^ 64) ∧
    ((rd 0 % 2 ^ 64).testBit 32 = (rd 1 % 2 ^ 64).testBit 32 →
      (arm64_858921_read_cntvct_el0 rd warned).val = rd 1 % 2 ^ 64) ∧
    (rd 0 % 2 ^ 64 = rd 1 % 2 ^ 64 →
      (arm64_858921_read_cntvct_el0 rd warned).val = rd 1 % 2 ^ 64) := by
  have hval : (arm64_858921_read_cntvct_el0 rd warned).val =
      (if (rd 0 % 2 ^ 64).testBit 32 ≠ (rd 1 % 2 ^ 64).testBit 32 then rd 0 % 2 ^ 64
       else rd 1 % 2 ^ 64) := by
    simp only [arm64_858921_read_cntvct_el0]
    by_cases h : (rd 0 % 2 ^ 64).testBit 32 = (rd 1 % 2 ^ 64).testBit 32
    · have hx : ¬ ((rd 0 % 2 ^ 64 ^^^ rd 1 % 2 ^ 64) >>> 32 &&& 1 ≠ 0) := by
        rw [shr32_and_one_ne_zero_iff, Nat.testBit_xor, h]
        simp
      rw [if_neg hx, if_neg (not_not.mpr h)]
    · have hx : (rd 0 % 2 ^ 64 ^^^ rd 1 % 2 ^ 64) >>> 32 &&& 1 ≠ 0 := by
        rw [shr32_and_one_ne_zero_iff, Nat.testBit_xor]
        cases h0 : (rd 0 % 2 ^ 64).testBit 32 <;> cases h1 : (rd 1 % 2 ^ 64).testBit 32 <;>
          simp_all
      rw [if_pos hx, if_pos h]
  refine ⟨rfl, rfl, hval, ?_, ?_⟩
  · intro h
    rw [hval, if_neg (not_not.mpr h)]
  · intro h
    rw [hval, h]
    simp

/-- C28 instantiated: the reads 0xffffffff and 0x100000000 differ in bit 32, so
the first is returned; two equal reads return that value. -/
theorem erratum_858921_read_witness :
    (arm64_858921_read_cntvct_el0 rd_carry false).val = 0xffffffff ∧
    (arm64_858921_read_cntvct_el0 rd_carry false).reads = 2 ∧
    (arm64_858921_read_cntvct_el0 (fun _ => 5) false).val = (fun _ => 5) 1 % 2 ^ 64 :=
  ⟨by decide, (erratum_858921_read rd_carry false).1,
   (erratum_858921_read (fun _ => 5) false).2.2.2.2 rfl⟩

/-- C24: for the privileged arm operations, `erratum_handler` yields a result, that
of the override called with the delta, exactly when the erratum flag is enabled,
the slot of the running core is non-empty and its descriptor supplies the
override for that timeline; the operation then returns what the override
returned.  In every other case the operation returns 0 after the default path
`set_next_event` on its own access mode. -/
theorem arm_override_dispatch (r : Registry) (cpu evt : Nat) (hw : Hw) :
    ((erratum_handler (fun wa => wa.set_next_event_virt) r cpu evt hw).isSome = true ↔
      (r.arch_timer_read_ool_enabled = true ∧
        ∃ wa, r.timer_unstable_counter_workaround cpu = some wa ∧
          wa.set_next_event_virt.isSome = true)) ∧
    (∀ wa f, r.arch_timer_read_ool_enabled = true →
      r.timer_unstable_counter_workaround cpu = some wa → wa.set_next_event_virt = some f →
      arch_timer_set_next_event_virt r cpu evt hw = f evt hw) ∧
    (¬ (r.arch_timer_read_ool_enabled = true ∧
        ∃ wa, r.timer_unstable_counter_workaround cpu = some wa ∧
          wa.set_next_event_virt.isSome = true) →
      arch_timer_set_next_event_virt r cpu evt hw
        = (0, set_next_event .ARCH_TIMER_VIRT_ACCESS evt hw)) ∧
    ((erratum_handler (fun wa => wa.set_next_event_phys) r cpu evt hw).isSome = true ↔
      (r.arch_timer_read_ool_enabled = true ∧
        ∃ wa, r.timer_unstable_counter_workaround cpu = some wa ∧
          wa.set_next_event_phys.isSome = true)) ∧
    (∀ wa f, r.arch_timer_read_ool_enabled = true →
      r.timer_unstable_counter_workaround cpu = some wa → wa.set_next_event_phys = some f →
      arch_timer_set_next_event_phys r cpu evt hw = f evt hw) ∧
    (¬ (r.arch_timer_read_ool_enabled = true ∧
        ∃ wa, r.timer_unstable_counter_workaround cpu = some wa ∧
          wa.set_next_event_phys.isSome = true) →
      arch_timer_set_next_event_phys r cpu evt hw
        = (0, set_next_event .ARCH_TIMER_PHYS_ACCESS evt hw)) := by
  have key : ∀ fn : arch_timer_erratum_workaround → Option set_next_event_fn,
      ((erratum_handler fn r cpu evt hw).isSome = true ↔
        (r.arch_timer_read_ool_enabled = true ∧
          ∃ wa, r.timer_unstable_counter_workaround cpu = some wa ∧ (fn wa).isSome = true)) ∧
      (∀ wa f, r.arch_timer_read_ool_enabled = true →
        r.timer_unstable_counter_workaround cpu = some wa → fn wa = some f →
        erratum_handler fn r cpu evt hw = some (f evt hw)) ∧
      (¬ (r.arch_timer_read_ool_enabled = true ∧
          ∃ wa, r.timer_unstable_counter_workaround cpu = some wa ∧ (fn wa).isSome = true) →
        erratum_handler fn r cpu evt hw = none) := by
    intro fn
    cases hflag : r.arch_timer_read_ool_enabled with
    | false =>
      have hv : erratum_handler fn r cpu evt hw = none := by
        simp [erratum_handler, needs_unstable_timer_counter_workaround, hflag]
      refine ⟨?_, ?_, ?_⟩
      · rw [hv]; simp
      · intro wa f h; cases h
      · intro _; exact hv
    | true =>
      cases hslot : r.timer_unstable_counter_workaround cpu with
      | none =>
        have hv : erratum_handler fn r cpu evt hw = none := by
          simp [erratum_handler, needs_unstable_timer_counter_workaround, hflag, hslot]
        refine ⟨?_, ?_, ?_⟩
        · rw [hv]; simp
        · intro wa f _ h; cases h
        · intro _; exact hv
      | some wa =>
        cases hfn : fn wa with
        | none =>
          have hv : erratum_handler fn r cpu evt hw = none := by
            simp [erratum_handler, needs_unstable_timer_counter_workaround, hflag, hslot, hfn]
          refine ⟨?_, ?_, ?_⟩
          · rw [hv]; simp [hfn]
          · intro w f _ h1 h2
            cases h1
            rw [hfn] at h2
            cases h2
          · intro _; exact hv
        | some f =>
          have hv : erratum_handler fn r cpu evt hw = some (f evt hw) := by
            simp [erratum_handler, needs_unstable_timer_counter_workaround, hflag, hslot, hfn]
          refine ⟨?_, ?_, ?_⟩
          · rw [hv]; simp [hfn]
          · intro w g _ h1 h2
            cases h1
            rw [hfn] at h2
            cases h2
            exact hv
          · intro h
            exact absurd ⟨rfl, wa, rfl, by simp [hfn]⟩ h
  have kv := key (fun wa => wa.set_next_event_virt)
  have kp := key (fun wa => wa.set_next_event_phys)
  refine ⟨kv.1, ?_, ?_, kp.1, ?_, ?_⟩
  · intro wa f h1 h2 h3
    unfold arch_timer_set_next_event_virt
    rw [kv.2.1 wa f h1 h2 h3]
  · intro h
    unfold arch_timer_set_next_event_virt
    rw [kv.2.2 h]
  · intro wa f h1 h2 h3
    unfold arch_timer_set_next_event_phys
    rw [kp.2.1 wa f h1 h2 h3]
  · intro h
    unfold arch_timer_set_next_event_phys
    rw [kp.2.2 h]

/-- C24 instantiated: with the flag enabled and an empty slot, and with a
descriptor that lacks the override, the default path runs and 0 is returned;
with the recording override active, the override runs. -/
theorem arm_override_dispatch_witness :
    arch_timer_set_next_event_virt registry_flag_only 0 100 (hw_const 0)
      = (0, set_next_event .ARCH_TIMER_VIRT_ACCESS 100 (hw_const 0)) ∧
    arch_timer_set_next_event_phys registry_858921 0 100 (hw_const 0)
      = (0, set_next_event .ARCH_TIMER_PHYS_ACCESS 100 (hw_const 0)) ∧
    arch_timer_set_next_event_virt registry_double 0 100 (hw_const 0)
      = double_set_next_event_virt 100 (hw_const 0) :=
  ⟨(arm_override_dispatch registry_flag_only 0 100 (hw_const 0)).2.2.1
      (fun h => by obtain ⟨_, wa, hwa, _⟩ := h; cases hwa),
   (arm_override_dispatch registry_858921 0 100 (hw_const 0)).2.2.2.2.2
      (fun h => by
        obtain ⟨_, wa, hwa, hs⟩ := h
        have e : wa = wa_858921 := (Option.some.inj hwa).symm
        subst e
        cases hs),
   (arm_override_dispatch registry_double 0 100 (hw_const 0)).2.1 wa_double
      double_set_next_event_virt rfl rfl rfl⟩

/-! ## Theorems: convergence of the counter readers -/

theorem fsl_a008585_loop_first_agree (rd : Nat → Nat) :
    ∀ r t j, j ≤ r →
      (∀ i, i < j → rd (t + 2 * i) % 2 ^ 64 ≠ rd (t + 2 * i + 1) % 2 ^ 64) →
      rd (t + 2 * j) % 2 ^ 64 = rd (t + 2 * j + 1) % 2 ^ 64 →
      fsl_a008585_loop rd r t =
        { _old := rd (t + 2 * j) % 2 ^ 64, _new := rd (t + 2 * j + 1) % 2 ^ 64,
          _retries := r - j, reads := t + 2 * j + 2 } := by
  intro r
  induction r with
  | zero =>
    intro t j hj _ _
    have : j = 0 := by omega
    subst this
    simp [fsl_a008585_loop]
  | succ r ih =>
    intro t j hj hdis hag
    cases j with
    | zero =>
      simp only [Nat.mul_zero, Nat.add_zero] at hag
      rw [fsl_a008585_loop]
      simp only [Nat.mul_zero, Nat.add_zero, Nat.sub_zero]
      rw [if_neg (not_not.mpr hag)]
    | succ j =>
      have h0 := hdis 0 (Nat.succ_pos j)
      simp only [Nat.mul_zero, Nat.add_zero] at h0
      have e1 : ∀ i, t + 2 + 2 * i = t + 2 * (i + 1) := fun i => by ring
      have ih' := ih (t + 2) j (by omega)
        (fun i hi => by rw [e1]; exact hdis (i + 1) (Nat.succ_lt_succ hi))
        (by rw [e1]; exact hag)
      rw [fsl_a008585_loop]
      simp only [if_pos h0]
      rw [ih', e1, Nat.succ_sub_succ]

/-- C22, as stated, fails at attempt 200: on `rd_late` the reads of attempts 1 to
199 disagree and those of attempt 200 agree on 5; the read stops there after
400 reads and returns 5, but `_retries` is 0 and the warning is emitted. -/
theorem fsl_read_reg_last_attempt_counterexample :
    rd_late 396 % 2 ^ 64 ≠ rd_late 397 % 2 ^ 64 ∧
    rd_late 398 % 2 ^ 64 = rd_late 399 % 2 ^ 64 ∧
    (__fsl_a008585_read_reg rd_late false).val = 5 ∧
    (__fsl_a008585_read_reg rd_late false).reads = 400 ∧
    (fsl_a008585_loop rd_late 199 0)._retries = 0 ∧
    (__fsl_a008585_read_reg rd_late false).emitted = true := by
  have h := fsl_a008585_loop_first_agree rd_late 199 0 199 (Nat.le_refl _)
    (fun i hi => by
      have h1 : 0 + 2 * i < 398 := by omega
      have h2 : 0 + 2 * i + 1 < 398 := by omega
      simp only [rd_late, if_pos h1, if_pos h2]
      omega)
    (by decide)
  refine ⟨by decide, by decide, ?_, ?_, ?_, ?_⟩ <;>
    simp [__fsl_a008585_read_reg, WARN_ON_ONCE, h, rd_late]

/-- C22 amended: when the two reads of attempt j + 1 agree (j < 200) and those of
every earlier attempt disagree, `__fsl_a008585_read_reg` stops at that attempt
after 2 (j + 1) reads and returns the agreed value, leaving `_retries` at
199 - j; when the attempt is one of the first 199 its diagnostic condition is
false: no warning is emitted and the warned flag of the site is unchanged. -/
theorem fsl_read_reg_converges (rd : Nat → Nat) (warned : Bool) (j : Nat) (hj : j < 200)
    (hdis : ∀ i, i < j → rd (2 * i) % 2 ^ 64 ≠ rd (2 * i + 1) % 2 ^ 64)
    (hagree : rd (2 * j) % 2 ^ 64 = rd (2 * j + 1) % 2 ^ 64) :
    (__fsl_a008585_read_reg rd warned).reads = 2 * (j + 1) ∧
    (__fsl_a008585_read_reg rd warned).val = rd (2 * j + 1) % 2 ^ 64 ∧
    (__fsl_a008585_read_reg rd warned).val = rd (2 * j) % 2 ^ 64 ∧
    (fsl_a008585_loop rd 199 0)._retries = 199 - j ∧
    (j < 199 → (__fsl_a008585_read_reg rd warned).emitted = false ∧
      (__fsl_a008585_read_reg rd warned).warned = warned) := by
  have h := fsl_a008585_loop_first_agree rd 199 0 j (by omega)
    (fun i hi => by simpa using hdis i hi) (by simpa using hagree)
  simp only [Nat.zero_add] at h
  refine ⟨?_, ?_, ?_, ?_, ?_⟩
  · simp only [__fsl_a008585_read_reg, h]; ring
  · simp only [__fsl_a008585_read_reg, h]
  · simp only [__fsl_a008585_read_reg, h]; exact hagree.symm
  · rw [h]
  · intro hlt
    have hne : (199 - j == 0) = false := by
      rw [beq_eq_false_iff_ne]; omega
    simp [__fsl_a008585_read_reg, WARN_ON_ONCE, h, hne]

/-- C22 amended, instantiated on `rd_early`: attempts 1 to 3 disagree, attempt 4
agrees on 5; eight reads, no warning. -/
theorem fsl_read_reg_converges_witness :
    (__fsl_a008585_read_reg rd_early false).reads = 2 * (3 + 1) ∧
    (__fsl_a008585_read_reg rd_early false).val = rd_early (2 * 3 + 1) % 2 ^ 64 ∧
    (__fsl_a008585_read_reg rd_early false).emitted = false :=
  have h := fsl_read_reg_converges rd_early false 3 (by decide) (by decide) (by decide)
  ⟨h.1, h.2.1, (h.2.2.2.2 (by decide)).1⟩

theorem cntvct_mem_first_stable (rd : Nat → Nat → Nat) :
    ∀ n t fuel,
      (∀ i, i < n → rd (t + 3 * i) CNTVCT_HI % 2 ^ 32 ≠ rd (t + 3 * i + 2) CNTVCT_HI % 2 ^ 32) →
      rd (t + 3 * n) CNTVCT_HI % 2 ^ 32 = rd (t + 3 * n + 2) CNTVCT_HI % 2 ^ 32 →
      arch_counter_get_cntvct_mem rd (n + 1 + fuel) t =
        some (((rd (t + 3 * n) CNTVCT_HI % 2 ^ 32) <<< 32)
                ||| (rd (t + 3 * n + 1) CNTVCT_LO % 2 ^ 32),
              t + 3 * n + 3) := by
  intro n
  induction n with
  | zero =>
    intro t fuel _ hst
    simp only [Nat.mul_zero, Nat.add_zero] at hst
    have e : 0 + 1 + fuel = fuel + 1 := by omega
    rw [e, arch_counter_get_cntvct_mem]
    simp only [Nat.mul_zero, Nat.add_zero]
    rw [if_neg (not_not.mpr hst),
      Nat.mod_eq_of_lt (shl32_or_lt _ _ (Nat.mod_lt _ (by norm_num)) (Nat.mod_lt _ (by norm_num)))]
  | succ n ih =>
    intro t fuel hdis hst
    have h0 := hdis 0 (Nat.succ_pos n)
    simp only [Nat.mul_zero, Nat.add_zero] at h0
    have e1 : ∀ i, t + 3 + 3 * i = t + 3 * (i + 1) := fun i => by ring
    have ih' := ih (t + 3) fuel
      (fun i hi => by rw [e1]; exact hdis (i + 1) (Nat.succ_lt_succ hi))
      (by rw [e1]; exact hst)
    have e : n + 1 + 1 + fuel = (n + 1 + fuel) + 1 := by omega
    rw [e, arch_counter_get_cntvct_mem]
    rw [if_pos h0, ih', e1]

/-- C23: for every stream of register reads in which iteration n + 1 of the loop
is the first whose two high-half reads are equal, `arch_counter_get_cntvct_mem`
returns after exactly n + 1 iterations, 3 (n + 1) reads, for every bound of at
least n + 1 iterations, and the value is (hi << 32) | lo with hi the value both
high-half reads of that iteration returned and lo the low half read between
them. -/
theorem cntvct_mem_terminates_at_first_stable (rd : Nat → Nat → Nat) (n fuel : Nat)
    (hdis : ∀ i, i < n →
      rd (3 * i) CNTVCT_HI % 2 ^ 32 ≠ rd (3 * i + 2) CNTVCT_HI % 2 ^ 32)
    (hst : rd (3 * n) CNTVCT_HI % 2 ^ 32 = rd (3 * n + 2) CNTVCT_HI % 2 ^ 32) :
    arch_counter_get_cntvct_mem rd (n + 1 + fuel) 0 =
      some (((rd (3 * n) CNTVCT_HI % 2 ^ 32) <<< 32) ||| (rd (3 * n + 1) CNTVCT_LO % 2 ^ 32),
            3 * (n + 1)) ∧
    (((rd (3 * n) CNTVCT_HI % 2 ^ 32) <<< 32) ||| (rd (3 * n + 1) CNTVCT_LO % 2 ^ 32)) >>> 32
      = rd (3 * n + 2) CNTVCT_HI % 2 ^ 32 ∧
    (((rd (3 * n) CNTVCT_HI % 2 ^ 32) <<< 32) ||| (rd (3 * n + 1) CNTVCT_LO % 2 ^ 32)) % 2 ^ 32
      = rd (3 * n + 1) CNTVCT_LO % 2 ^ 32 := by
  have hlo : rd (3 * n + 1) CNTVCT_LO % 2 ^ 32 < 2 ^ 32 := Nat.mod_lt _ (by norm_num)
  have h := cntvct_mem_first_stable rd n 0 fuel (fun i hi => by simpa using hdis i hi)
    (by simpa using hst)
  simp only [Nat.zero_add] at h
  refine ⟨?_, ?_, shl32_or_lo _ _ hlo⟩
  · rw [h]
    have e : 3 * n + 3 = 3 * (n + 1) := by ring
    rw [e]
  · rw [shl32_or_hi _ _ hlo, hst]

/-- C23 instantiated on `rd_moving`: the high half reads 0/1, 1/2, 2/2 in the
three iterations; the third is the first stable one, after nine reads. -/
theorem cntvct_mem_terminates_at_first_stable_witness :
    arch_counter_get_cntvct_mem rd_moving (2 + 1 + 0) 0 =
      some (((rd_moving (3 * 2) CNTVCT_HI % 2 ^ 32) <<< 32)
              ||| (rd_moving (3 * 2 + 1) CNTVCT_LO % 2 ^ 32), 3 * (2 + 1)) :=
  (cntvct_mem_terminates_at_first_stable rd_moving 2 0
    (fun i hi => by
      have : i = 0 ∨ i = 1 := by omega
      rcases this with h | h <;> subst h <;> decide)
    (by decide)).1

/-! ## Theorems: firmware table match -/

theorem oem_loop_sentinel (table : acpi_table_header) :
    ∀ (pre : List ate_acpi_oem_info) (s : ate_acpi_oem_info) (post : List ate_acpi_oem_info),
      (∀ e, e ∈ pre → oem_info_is_empty e = false) → oem_info_is_empty s = true →
      arch_timer_check_acpi_oem_erratum_loop table (pre ++ s :: post) =
        some (pre.any (fun e =>
          decide (e.oem_id.take ACPI_OEM_ID_SIZE = table.oem_id.take ACPI_OEM_ID_SIZE ∧
            e.oem_table_id.take ACPI_OEM_TABLE_ID_SIZE
              = table.oem_table_id.take ACPI_OEM_TABLE_ID_SIZE ∧
            e.oem_revision = table.oem_revision))) := by
  intro pre
  induction pre with
  | nil =>
    intro s post _ hs
    simp [arch_timer_check_acpi_oem_erratum_loop, hs]
  | cons a rest ih =>
    intro s post hpre hs
    have ha : oem_info_is_empty a = false := hpre a (List.mem_cons_self _ _)
    have ih' := ih s post (fun e he => hpre e (List.mem_cons_of_mem _ he)) hs
    rw [List.cons_append, arch_timer_check_acpi_oem_erratum_loop]
    simp only [ha, Bool.false_eq_true, if_false, List.any_cons]
    by_cases hm : a.oem_id.take ACPI_OEM_ID_SIZE = table.oem_id.take ACPI_OEM_ID_SIZE ∧
        a.oem_table_id.take ACPI_OEM_TABLE_ID_SIZE
          = table.oem_table_id.take ACPI_OEM_TABLE_ID_SIZE ∧
        a.oem_revision = table.oem_revision
    · rw [if_pos hm]
      simp [hm]
    · rw [if_neg hm, ih']
      simp [hm]

/-- C27: for every table header and every OEM-info array made of non-empty
entries `pre`, an all-zero sentinel and anything after it,
`arch_timer_check_acpi_oem_erratum` returns (the walk does not leave the array),
and returns true if and only if some entry of `pre` has the first 6 bytes of
its OEM id, the first 8 bytes of its OEM table id and its OEM revision equal to
the table's; what follows the sentinel has no influence on the result. -/
theorem acpi_oem_match_before_sentinel (table : acpi_table_header)
    (pre : List ate_acpi_oem_info) (s : ate_acpi_oem_info) (post : List ate_acpi_oem_info)
    (cpu : Nat) (wa : arch_timer_erratum_workaround)
    (hpre : ∀ e, e ∈ pre → oem_info_is_empty e = false) (hs : oem_info_is_empty s = true)
    (hid : wa.id = erratum_id.oem (pre ++ s :: post)) :
    (arch_timer_check_acpi_oem_erratum_loop table (pre ++ s :: post)).isSome = true ∧
    (arch_timer_check_acpi_oem_erratum cpu wa (.table table) = true ↔
      ∃ e, e ∈ pre ∧ e.oem_id.take 6 = table.oem_id.take 6 ∧
        e.oem_table_id.take 8 = table.oem_table_id.take 8 ∧
        e.oem_revision = table.oem_revision) ∧
    arch_timer_check_acpi_oem_erratum_loop table (pre ++ s :: post)
      = arch_timer_check_acpi_oem_erratum_loop table (pre ++ [s]) := by
  have h1 := oem_loop_sentinel table pre s post hpre hs
  have h2 := oem_loop_sentinel table pre s [] hpre hs
  refine ⟨by rw [h1]; rfl, ?_, by rw [h1, h2]⟩
  unfold arch_timer_check_acpi_oem_erratum
  simp only [hid, h1, Option.getD_some, List.any_eq_true, decide_eq_true_eq,
    ACPI_OEM_ID_SIZE, ACPI_OEM_TABLE_ID_SIZE]

/-- C27 instantiated on the HiSilicon array of the catalog: a table of HISI /
HIP06 / revision 0 matches its second entry, a table of another vendor matches
none. -/
theorem acpi_oem_match_before_sentinel_witness :
    arch_timer_check_acpi_oem_erratum 0
        { match_type := .ate_match_acpi_oem_info, id := .oem hisi_161010101_oem_info,
          desc := "HiSilicon erratum 161010101" } (.table table_hip06) = true ∧
    arch_timer_check_acpi_oem_erratum 0
        { match_type := .ate_match_acpi_oem_info, id := .oem hisi_161010101_oem_info,
          desc := "HiSilicon erratum 161010101" } (.table table_other) = false ∧
    (arch_timer_check_acpi_oem_erratum_loop table_hip06 hisi_161010101_oem_info).isSome
      = true :=
  ⟨by decide, by decide,
   (acpi_oem_match_before_sentinel table_hip06 (hisi_161010101_oem_info.take 3)
      (hisi_161010101_oem_info.getD 3 ⟨[], [], 0⟩) [] 0
      { match_type := .ate_match_acpi_oem_info, id := .oem hisi_161010101_oem_info,
        desc := "HiSilicon erratum 161010101" }
      (by decide) (by decide) rfl).1⟩

/-! ## Theorems: device setup -/

/-- C21 instantiated: Control of the virtual timer reads 7; one shutdown writes
6, and a second shutdown leaves the same register file. -/
theorem timer_shutdown_idempotent_witness :
    (timer_shutdown .ARCH_TIMER_VIRT_ACCESS (hw_const 7)).2.trace
      = [Event.write Loc.cntv_ctl_el0 6] ∧
    (timer_shutdown .ARCH_TIMER_VIRT_ACCESS
        (timer_shutdown .ARCH_TIMER_VIRT_ACCESS (hw_const 7)).2).2.reg
      = (timer_shutdown .ARCH_TIMER_VIRT_ACCESS (hw_const 7)).2.reg :=
  ⟨by decide, (timer_shutdown_idempotent .ARCH_TIMER_VIRT_ACCESS (hw_const 7)).2.2.2.2.2.2.2.1⟩

end ArchTimer
